import Mathlib

/-!
Shallow embedding of the game-session and card-state engine of the
mtg-play backend (src/backend/app): the data model (models/game.py,
models/game_state.py), the card repository (repositories/game_state.py)
and the game service (services/game_service.py).

Conventions of the embedding:
* The relational store is a pure value (`Db`); each table is a list of
  rows.  SQLAlchemy `order_by(position)` is modelled by an insertion
  sort on the `position` field, `filter(...).first()` by `List.find?`,
  in-place ORM mutation by mapping an update function over the table
  keyed on the row's primary key.
* Python `int` fields are `Int` (positions may be caller supplied),
  primary keys are `Nat`.  Python `float` fields (`cmc`,
  `battlefield_x`, `battlefield_y`) are never used arithmetically by
  this code — they are only stored and copied — so they are modelled by
  an order-irrelevant `Int` payload.  JSON payload columns (`colors`,
  `keywords`, `image_uris`, `card_faces`) are opaque `String` blobs.
* `random.choice` / `random.shuffle` results are explicit parameters of
  the operations that consume them.
* FastAPI `HTTPException` outcomes are an `ApiErr` sum; service methods
  return `Except ApiErr Db`.
-/

/-- models/game.py `CardZone`. -/
inductive CardZone where
  | library
  | hand
  | battlefield
  | graveyard
  | exile
  | commander
deriving DecidableEq, Repr

/-- models/game.py `TurnPhase` (the Python member `END` is `end_step`
here because `end` is a Lean keyword). -/
inductive TurnPhase where
  | untap
  | upkeep
  | draw
  | main1
  | combat_start
  | combat_attack
  | combat_block
  | combat_damage
  | combat_end
  | main2
  | end_step
  | cleanup
deriving DecidableEq, Repr

/-- models/game.py `GameStatus`. -/
inductive GameStatus where
  | waiting
  | in_progress
  | completed
deriving DecidableEq, Repr

/-- models/game.py `PlayerStatus`. -/
inductive PlayerStatus where
  | pending
  | accepted
  | rejected
deriving DecidableEq, Repr

/-- models/game_state.py `GameCard`: one row of the `game_cards` table. -/
structure GameCard where
  id : Nat
  game_state_id : Nat
  player_game_state_id : Nat
  deck_card_id : Option Nat
  card_scryfall_id : String
  card_name : String
  mana_cost : Option String
  cmc : Option Int
  type_line : Option String
  oracle_text : Option String
  colors : Option String
  power : Option String
  toughness : Option String
  keywords : Option String
  image_uris : Option String
  card_faces : Option String
  zone : CardZone
  position : Int
  is_tapped : Bool
  is_face_up : Bool
  battlefield_x : Option Int
  battlefield_y : Option Int
  is_attacking : Bool
  is_blocking : Bool
  damage_received : Int
deriving DecidableEq, Repr

/-- models/game_state.py `PlayerGameState`: one row of
`player_game_states`. -/
structure PlayerGameState where
  id : Nat
  game_state_id : Nat
  user_id : Nat
  player_order : Int
  is_active : Bool
  life_total : Int
  poison_counters : Int
deriving DecidableEq, Repr

/-- models/game_state.py `GameState`: one row of `game_states` (the
`GameSession` of the spec).  The owning room is implicit: `Db` below
holds the single room this session belongs to. -/
structure GameState where
  id : Nat
  current_turn : Int
  active_player_id : Nat
  current_phase : TurnPhase
  starting_player_id : Nat
deriving DecidableEq, Repr

/-- models/game.py `GameRoomPlayer`: room-level membership row. -/
structure GameRoomPlayer where
  id : Nat
  user_id : Nat
  status : PlayerStatus
  is_host : Bool
  deck_id : Option Nat
deriving DecidableEq, Repr

/-- The slice of the relational store reachable from one game room:
the room's status and host, its membership rows, its (at most one)
game session and the session's player states and cards. -/
structure Db where
  room_status : GameStatus
  host_id : Nat
  room_players : List GameRoomPlayer
  game_state : Option GameState
  player_states : List PlayerGameState
  cards : List GameCard
deriving DecidableEq, Repr

/-- FastAPI error outcomes raised by the game service (`HTTPException`
with status 404 / 403 / 400 and a detail string). -/
inductive ApiErr where
  | notFound (detail : String)
  | forbidden (detail : String)
  | badRequest (detail : String)
deriving DecidableEq, Repr

/-- The `filter(player_game_state_id == ..., zone == ...)` predicate of
card zone queries. -/
def zonePred (player_state_id : Nat) (zone : CardZone) : GameCard → Bool :=
  fun c => decide (c.player_game_state_id = player_state_id ∧ c.zone = zone)

/-- The `order_by(GameCard.position)` ordering of card queries. -/
def posLE (a b : GameCard) : Prop := a.position ≤ b.position

instance : DecidableRel posLE := fun a b => inferInstanceAs (Decidable (a.position ≤ b.position))

instance : IsTotal GameCard posLE := ⟨fun a b => Int.le_total a.position b.position⟩

instance : IsTrans GameCard posLE := ⟨fun _ _ _ h h' => Int.le_trans h h'⟩

namespace GameCardRepository

/-- repositories/game_state.py `GameCardRepository.get_player_cards_in_zone`:
cards of one player state in one zone, ordered by `position`. -/
def get_player_cards_in_zone (cards : List GameCard) (player_state_id : Nat)
    (zone : CardZone) : List GameCard :=
  List.insertionSort posLE (cards.filter (zonePred player_state_id zone))

/-- repositories/game_state.py `GameCardRepository.get_card_by_id`. -/
def get_card_by_id (cards : List GameCard) (card_id : Nat) : Option GameCard :=
  cards.find? fun c => decide (c.id = card_id)

/-- repositories/game_state.py `GameCardRepository.move_card`: set the
card's zone and position; reassign the owner only when the optional
`player_state_id` argument is passed and truthy (Python `if
player_state_id:` — `0` is falsy). -/
def move_card (cards : List GameCard) (card_id : Nat) (new_zone : CardZone)
    (new_position : Int) (player_state_id : Option Nat := none) : List GameCard :=
  cards.map fun c =>
    if c.id = card_id then
      { c with
        zone := new_zone
        position := new_position
        player_game_state_id :=
          match player_state_id with
          | some pid => if pid = 0 then c.player_game_state_id else pid
          | none => c.player_game_state_id }
    else c

/-- The cards `GameCardRepository.draw_cards` draws: the first
`count` of the player's library ordered by position. -/
def drawn_cards (cards : List GameCard) (player_state_id : Nat)
    (count : Nat) : List GameCard :=
  (get_player_cards_in_zone cards player_state_id CardZone.library).take count

/-- The per-row effect of the `draw_cards` loop: a row whose id is among
the drawn cards (paired with their draw index `i` by `enum`) gets zone
`HAND` and position `i`; any other row is untouched. -/
def draw_update (drawn : List (Nat × GameCard)) (c : GameCard) : GameCard :=
  match drawn.find? (fun p => decide (p.2.id = c.id)) with
  | some p => { c with zone := CardZone.hand, position := Int.ofNat p.1 }
  | none => c

/-- repositories/game_state.py `GameCardRepository.draw_cards`: each of
the first `min count |library|` library cards (by position order) gets
zone `HAND` and position `i` — the loop writes `card.position = i`
with `i` counting from `0`. -/
def draw_cards (cards : List GameCard) (player_state_id : Nat)
    (count : Nat) : List GameCard :=
  cards.map (draw_update (drawn_cards cards player_state_id count).enum)

/-- repositories/game_state.py `GameCardRepository.toggle_tapped`. -/
def toggle_tapped (cards : List GameCard) (card_id : Nat) : List GameCard :=
  cards.map fun c =>
    if c.id = card_id then { c with is_tapped := !c.is_tapped } else c

/-- repositories/game_state.py
`GameCardRepository.update_battlefield_position`. -/
def update_battlefield_position (cards : List GameCard) (card_id : Nat)
    (x y : Int) : List GameCard :=
  cards.map fun c =>
    if c.id = card_id then
      { c with battlefield_x := some x, battlefield_y := some y }
    else c

end GameCardRepository

namespace GameService

/-- repositories/game.py `GameRoomPlayerRepository.get_player`
(`filter(game_room_id, user_id).first()`). -/
def get_room_player (players : List GameRoomPlayer) (user_id : Nat) :
    Option GameRoomPlayer :=
  players.find? fun p => decide (p.user_id = user_id)

/-- repositories/game_state.py
`PlayerGameStateRepository.get_by_game_state_and_user`. -/
def get_by_game_state_and_user (states : List PlayerGameState)
    (game_state_id user_id : Nat) : Option PlayerGameState :=
  states.find? fun p => decide (p.game_state_id = game_state_id ∧ p.user_id = user_id)

/-- The `order_by(player_order)` ordering of
`PlayerGameStateRepository.get_by_game_state`. -/
def orderLE (a b : PlayerGameState) : Prop := a.player_order ≤ b.player_order

instance : DecidableRel orderLE := fun a b =>
  inferInstanceAs (Decidable (a.player_order ≤ b.player_order))

instance : IsTotal PlayerGameState orderLE := ⟨fun a b => Int.le_total a.player_order b.player_order⟩

instance : IsTrans PlayerGameState orderLE := ⟨fun _ _ _ h h' => Int.le_trans h h'⟩

/-- repositories/game_state.py `PlayerGameStateRepository.get_by_game_state`:
all player states of a session, ordered by `player_order`. -/
def get_by_game_state (states : List PlayerGameState) (game_state_id : Nat) :
    List PlayerGameState :=
  List.insertionSort orderLE
    (states.filter fun p => decide (p.game_state_id = game_state_id))

/-- The shared guard sequence of every gameplay operation of
services/game_service.py (`draw_card`, `play_card`, `move_card`,
`tap_card`, `update_battlefield_position`, `untap_all`): room in
progress, session present, caller a participant.  Yields the session
and the caller's player state. -/
def resolve_player_state (db : Db) (user_id : Nat) :
    Except ApiErr (GameState × PlayerGameState) :=
  if db.room_status ≠ GameStatus.in_progress then
    .error (ApiErr.badRequest "Game is not in progress")
  else
    match db.game_state with
    | none => .error (ApiErr.notFound "Game state not found")
    | some gs =>
      match get_by_game_state_and_user db.player_states gs.id user_id with
      | none => .error (ApiErr.forbidden "You are not in this game")
      | some ps => .ok (gs, ps)

/-- The card-resolution + ownership guard shared by `play_card`,
`move_card`, `tap_card` and `update_battlefield_position`. -/
def resolve_owned_card (db : Db) (ps : PlayerGameState) (card_id : Nat) :
    Except ApiErr GameCard :=
  match GameCardRepository.get_card_by_id db.cards card_id with
  | none => .error (ApiErr.notFound "Card not found")
  | some card =>
    if card.player_game_state_id ≠ ps.id then
      .error (ApiErr.forbidden "This card is not yours")
    else .ok card

/-- services/game_service.py `GameService.draw_card`: guards, then
`draw_cards(player_state.id, 1)`. -/
def draw_card (db : Db) (user_id : Nat) : Except ApiErr Db :=
  match resolve_player_state db user_id with
  | .error e => .error e
  | .ok (_, ps) =>
    .ok { db with cards := GameCardRepository.draw_cards db.cards ps.id 1 }

/-- services/game_service.py `GameService.play_card`: the card must be
in HAND; it is moved to `target_zone` at position = count of the
caller's cards already in that zone.  The `position` field of
schemas/game_state.py `PlayCardRequest` (default `0`) never reaches
this method — the service signature has no such parameter — so
`requested_position` below is accepted and ignored, mirroring the
schema/service pair. -/
def play_card (db : Db) (user_id card_id : Nat) (target_zone : CardZone)
    (requested_position : Int := 0) : Except ApiErr Db :=
  match resolve_player_state db user_id with
  | .error e => .error e
  | .ok (_, ps) =>
    match resolve_owned_card db ps card_id with
    | .error e => .error e
    | .ok card =>
      if card.zone ≠ CardZone.hand then
        .error (ApiErr.badRequest "Card is not in hand")
      else
        let new_position :=
          (GameCardRepository.get_player_cards_in_zone db.cards ps.id target_zone).length
        .ok { db with
          cards := GameCardRepository.move_card db.cards card_id target_zone
            (Int.ofNat new_position) }

/-- services/game_service.py `GameService.move_card`: general re-zone
with the caller-supplied position. -/
def move_card (db : Db) (user_id card_id : Nat) (target_zone : CardZone)
    (position : Int) : Except ApiErr Db :=
  match resolve_player_state db user_id with
  | .error e => .error e
  | .ok (_, ps) =>
    match resolve_owned_card db ps card_id with
    | .error e => .error e
    | .ok _ =>
      .ok { db with
        cards := GameCardRepository.move_card db.cards card_id target_zone position }

/-- services/game_service.py `GameService.tap_card`. -/
def tap_card (db : Db) (user_id card_id : Nat) : Except ApiErr Db :=
  match resolve_player_state db user_id with
  | .error e => .error e
  | .ok (_, ps) =>
    match resolve_owned_card db ps card_id with
    | .error e => .error e
    | .ok _ =>
      .ok { db with cards := GameCardRepository.toggle_tapped db.cards card_id }

/-- services/game_service.py `GameService.update_battlefield_position`:
after the ownership guard the card must be on the battlefield. -/
def update_battlefield_position (db : Db) (user_id card_id : Nat)
    (x y : Int) : Except ApiErr Db :=
  match resolve_player_state db user_id with
  | .error e => .error e
  | .ok (_, ps) =>
    match resolve_owned_card db ps card_id with
    | .error e => .error e
    | .ok card =>
      if card.zone ≠ CardZone.battlefield then
        .error (ApiErr.badRequest "Card is not on the battlefield")
      else
        .ok { db with
          cards := GameCardRepository.update_battlefield_position db.cards card_id x y }

/-- services/game_service.py `GameService.stop_game`: host only,
requires IN_PROGRESS; deletes the session's cards, player states and
the session row, then sets the room back to WAITING. -/
def stop_game (db : Db) (user_id : Nat) : Except ApiErr Db :=
  if db.host_id ≠ user_id then
    .error (ApiErr.forbidden "Only the host can stop the game")
  else if db.room_status ≠ GameStatus.in_progress then
    .error (ApiErr.badRequest "Game is not in progress")
  else
    let db' :=
      match db.game_state with
      | none => db
      | some gs =>
        { db with
          cards := db.cards.filter fun c => decide (c.game_state_id ≠ gs.id)
          player_states := db.player_states.filter fun p => decide (p.game_state_id ≠ gs.id)
          game_state := none }
    .ok { db' with room_status := GameStatus.waiting }

end GameService

/-- schemas/game_state.py `GameCardResponse`, as filled by
`GameService._card_to_dict`. -/
structure GameCardView where
  id : Nat
  card_scryfall_id : String
  card_name : String
  mana_cost : Option String
  cmc : Option Int
  type_line : Option String
  oracle_text : Option String
  colors : Option String
  power : Option String
  toughness : Option String
  keywords : Option String
  image_uris : Option String
  card_faces : Option String
  zone : CardZone
  position : Int
  is_tapped : Bool
  is_face_up : Bool
  battlefield_x : Option Int
  battlefield_y : Option Int
  is_attacking : Bool
  is_blocking : Bool
  damage_received : Int
deriving DecidableEq, Repr

/-- schemas/game_state.py `GameCardInBattlefieldResponse`, as filled by
`GameService._card_to_battlefield_dict` (reduced field set). -/
structure GameCardInBattlefieldView where
  id : Nat
  card_scryfall_id : String
  card_name : String
  mana_cost : Option String
  type_line : Option String
  oracle_text : Option String
  power : Option String
  toughness : Option String
  image_uris : Option String
  card_faces : Option String
  is_tapped : Bool
  is_face_up : Bool
  battlefield_x : Option Int
  battlefield_y : Option Int
  is_attacking : Bool
  is_blocking : Bool
deriving DecidableEq, Repr

/-- schemas/game_state.py `PlayerGameStateResponse`. -/
structure PlayerGameStateView where
  id : Nat
  user_id : Nat
  player_order : Int
  is_active : Bool
  life_total : Int
  poison_counters : Int
  library : List GameCardView
  hand : List GameCardView
  battlefield : List GameCardInBattlefieldView
  graveyard : List GameCardView
  exile : List GameCardView
  commander : List GameCardView
deriving DecidableEq, Repr

/-- schemas/game_state.py `GameStateResponse` (usernames and
timestamps, which come from other tables, are omitted). -/
structure GameStateView where
  id : Nat
  current_turn : Int
  active_player_id : Nat
  current_phase : TurnPhase
  starting_player_id : Nat
  players : List PlayerGameStateView
deriving DecidableEq, Repr

namespace GameService

/-- services/game_service.py `GameService._card_to_dict`: card identity
and metadata are blanked when `reveal` is false. -/
def card_to_dict (card : GameCard) (reveal : Bool) : GameCardView :=
  { id := card.id
    card_scryfall_id := card.card_scryfall_id
    card_name := if reveal then card.card_name else "Unknown"
    mana_cost := if reveal then card.mana_cost else none
    cmc := if reveal then card.cmc else none
    type_line := if reveal then card.type_line else none
    oracle_text := if reveal then card.oracle_text else none
    colors := if reveal then card.colors else none
    power := if reveal then card.power else none
    toughness := if reveal then card.toughness else none
    keywords := if reveal then card.keywords else none
    image_uris := if reveal then card.image_uris else none
    card_faces := if reveal then card.card_faces else none
    zone := card.zone
    position := card.position
    is_tapped := card.is_tapped
    is_face_up := if reveal then card.is_face_up else false
    battlefield_x := card.battlefield_x
    battlefield_y := card.battlefield_y
    is_attacking := card.is_attacking
    is_blocking := card.is_blocking
    damage_received := card.damage_received }

/-- services/game_service.py `GameService._card_to_battlefield_dict`. -/
def card_to_battlefield_dict (card : GameCard) : GameCardInBattlefieldView :=
  { id := card.id
    card_scryfall_id := card.card_scryfall_id
    card_name := card.card_name
    mana_cost := card.mana_cost
    type_line := card.type_line
    oracle_text := card.oracle_text
    power := card.power
    toughness := card.toughness
    image_uris := card.image_uris
    card_faces := card.card_faces
    is_tapped := card.is_tapped
    is_face_up := card.is_face_up
    battlefield_x := card.battlefield_x
    battlefield_y := card.battlefield_y
    is_attacking := card.is_attacking
    is_blocking := card.is_blocking }

/-- The per-player projection `GameService.get_game_state` builds inside
its loop over player states: LIBRARY and HAND are included only when the
player state belongs to the requesting viewer (`is_current_user`),
otherwise they are the empty list; BATTLEFIELD, GRAVEYARD, EXILE and
COMMANDER are always included in full. -/
def project_player_state (cards : List GameCard) (viewer_user_id : Nat)
    (ps : PlayerGameState) : PlayerGameStateView :=
  let is_current_user := ps.user_id = viewer_user_id
  { id := ps.id
    user_id := ps.user_id
    player_order := ps.player_order
    is_active := ps.is_active
    life_total := ps.life_total
    poison_counters := ps.poison_counters
    library :=
      if is_current_user then
        (GameCardRepository.get_player_cards_in_zone cards ps.id CardZone.library).map
          (card_to_dict · is_current_user)
      else []
    hand :=
      if is_current_user then
        (GameCardRepository.get_player_cards_in_zone cards ps.id CardZone.hand).map
          (card_to_dict · is_current_user)
      else []
    battlefield :=
      (GameCardRepository.get_player_cards_in_zone cards ps.id CardZone.battlefield).map
        card_to_battlefield_dict
    graveyard :=
      (GameCardRepository.get_player_cards_in_zone cards ps.id CardZone.graveyard).map
        (card_to_dict · true)
    exile :=
      (GameCardRepository.get_player_cards_in_zone cards ps.id CardZone.exile).map
        (card_to_dict · true)
    commander :=
      (GameCardRepository.get_player_cards_in_zone cards ps.id CardZone.commander).map
        (card_to_dict · true) }

/-- services/game_service.py `GameService.get_game_state`: the viewer
must be an ACCEPTED room player (403 otherwise), the session must exist
(404 otherwise); the response holds one projection per player state,
ordered by `player_order`. -/
def get_game_state (db : Db) (user_id : Nat) : Except ApiErr GameStateView :=
  match get_room_player db.room_players user_id with
  | none => .error (ApiErr.forbidden "You are not in this game")
  | some player =>
    if player.status ≠ PlayerStatus.accepted then
      .error (ApiErr.forbidden "You are not in this game")
    else
      match db.game_state with
      | none => .error (ApiErr.notFound "Game state not found")
      | some gs =>
        let player_states := get_by_game_state db.player_states gs.id
        .ok
          { id := gs.id
            current_turn := gs.current_turn
            active_player_id := gs.active_player_id
            current_phase := gs.current_phase
            starting_player_id := gs.starting_player_id
            players := player_states.map (project_player_state db.cards user_id) }

end GameService

/-- The card metadata snapshot an entry resolves to (the fields
`GameService.start_game` copies out of the Scryfall payload). -/
structure CardMeta where
  name : String
  mana_cost : Option String
  cmc : Option Int
  type_line : Option String
  oracle_text : Option String
  colors : Option String
  power : Option String
  toughness : Option String
  keywords : Option String
  image_uris : Option String
  card_faces : Option String
deriving DecidableEq, Repr

/-- One resolved deck-card entry as consumed by the dealing loop of
`GameService.start_game`: a `DeckCard` row (`id`, `card_scryfall_id`,
`quantity`, `is_commander`) together with the metadata its Scryfall
lookup returned.  Entries whose lookup fails never reach the loop body
(they are skipped), so the claims about dealing quantify over resolved
entries only. -/
structure DeckEntry where
  id : Nat
  card_scryfall_id : String
  quantity : Nat
  is_commander : Bool
  meta : CardMeta
deriving DecidableEq, Repr

namespace SessionInitializer

/-- The expansion `for _ in range(deck_card.quantity)` of the dealing
loop: each entry contributes `quantity` copies, in entry order. -/
def expandEntries : List DeckEntry → List DeckEntry
  | [] => []
  | e :: es => List.replicate e.quantity e ++ expandEntries es

/-- The `cards_data.append({...})` record of `GameService.start_game`:
all copies start in LIBRARY with `position = len(cards_data)` (the
running index).  `create_cards` assigns fresh primary keys in insert
order; they are modelled as `first_id + index`. -/
def mkDealtCard (game_state_id player_state_id first_id : Nat) (index : Nat)
    (e : DeckEntry) : GameCard :=
  { id := first_id + index
    game_state_id := game_state_id
    player_game_state_id := player_state_id
    deck_card_id := some e.id
    card_scryfall_id := e.card_scryfall_id
    card_name := e.meta.name
    mana_cost := e.meta.mana_cost
    cmc := e.meta.cmc
    type_line := e.meta.type_line
    oracle_text := e.meta.oracle_text
    colors := e.meta.colors
    power := e.meta.power
    toughness := e.meta.toughness
    keywords := e.meta.keywords
    image_uris := e.meta.image_uris
    card_faces := e.meta.card_faces
    zone := CardZone.library
    position := Int.ofNat index
    is_tapped := false
    is_face_up := true
    battlefield_x := none
    battlefield_y := none
    is_attacking := false
    is_blocking := false
    damage_received := 0 }

/-- Steps "materialize quantity CardInstances, all in LIBRARY" of the
dealing loop, for one player. -/
def materialize (game_state_id player_state_id first_id : Nat)
    (entries : List DeckEntry) : List GameCard :=
  (expandEntries entries).enum.map fun p =>
    mkDealtCard game_state_id player_state_id first_id p.1 p.2

/-- The per-row effect of the shuffle loop: a library row found in the
(id, new position) assignment gets that position written. -/
def shuffle_update (assignment : List (Nat × Int)) (c : GameCard) : GameCard :=
  match assignment.find? (fun a => decide (a.1 = c.id)) with
  | some a => { c with position := a.2 }
  | none => c

/-- The shuffle step of `GameService.start_game` (lines 411-416): query
the player's library ordered by position, then write
`card.position = positions[i]` where `positions` is the shuffled
`list(range(len(all_cards)))` — here an explicit parameter. -/
def shuffleLibrary (cards : List GameCard) (player_state_id : Nat)
    (positions : List Int) : List GameCard :=
  let all_cards :=
    GameCardRepository.get_player_cards_in_zone cards player_state_id CardZone.library
  let assignment := all_cards.enum.map fun p => (p.2.id, positions.getD p.1 p.2.position)
  cards.map (shuffle_update assignment)

/-- Whether a dealt card originates from a commander-flagged deck entry
(`GameCard.deck_card_id.in_(commander_card_ids)`). -/
def isCommanderCard (commander_card_ids : List Nat) (c : GameCard) : Bool :=
  match c.deck_card_id with
  | some d => commander_card_ids.contains d
  | none => false

/-- The per-row effect of the commander step: a row of this player whose
`deck_card_id` is commander-flagged moves to COMMANDER at position 0. -/
def commander_update (player_state_id : Nat) (commander_card_ids : List Nat)
    (c : GameCard) : GameCard :=
  if c.player_game_state_id = player_state_id ∧
      isCommanderCard commander_card_ids c then
    { c with zone := CardZone.commander, position := 0 }
  else c

/-- The commander step of `GameService.start_game` (lines 418-428):
every card of this player whose `deck_card_id` is one of the
commander-flagged deck-card ids is moved to the COMMANDER zone at
position 0. -/
def moveCommanders (cards : List GameCard) (player_state_id : Nat)
    (commander_card_ids : List Nat) : List GameCard :=
  cards.map (commander_update player_state_id commander_card_ids)

/-- The whole per-player dealing pipeline of `GameService.start_game`
(lines 368-431): materialize all copies into LIBRARY, and — when the
library is non-empty — shuffle it, move the commander-flagged copies to
COMMANDER (only when some entry is commander-flagged, matching the
`if commander_card_ids:` guard), and draw the opening hand of 7. -/
def dealPlayer (game_state_id player_state_id first_id : Nat)
    (entries : List DeckEntry) (positions : List Int) : List GameCard :=
  let cards := materialize game_state_id player_state_id first_id entries
  let all_cards :=
    GameCardRepository.get_player_cards_in_zone cards player_state_id CardZone.library
  if all_cards.isEmpty then cards
  else
    let shuffled := shuffleLibrary cards player_state_id positions
    let commander_card_ids := (entries.filter (·.is_commander)).map (·.id)
    let after_commanders :=
      if commander_card_ids.isEmpty then shuffled
      else moveCommanders shuffled player_state_id commander_card_ids
    GameCardRepository.draw_cards after_commanders player_state_id 7

/-- The session-record and player-state creation of
`GameService.start_game` (lines 333-354).  `start_index` stands for the
`random.choice(accepted_players)` draw; `shuffled_player_order` is the
`player_order` list the code builds with `random.shuffle` — the source
never reads it again, and each player state is created with
`"player_order": i`, the join-order loop index. -/
def start_game_states (game_state_id : Nat) (accepted_players : List GameRoomPlayer)
    (start_index : Nat) (shuffled_player_order : List Nat) :
    GameState × List PlayerGameState :=
  let starting_player := accepted_players.getD start_index
    { id := 0, user_id := 0, status := PlayerStatus.accepted,
      is_host := false, deck_id := none }
  let game_state : GameState :=
    { id := game_state_id
      current_turn := 1
      active_player_id := starting_player.user_id
      current_phase := TurnPhase.untap
      starting_player_id := starting_player.user_id }
  let player_states := accepted_players.enum.map fun p =>
    { id := p.1
      game_state_id := game_state_id
      user_id := p.2.user_id
      player_order := Int.ofNat p.1
      is_active := p.2.user_id = starting_player.user_id
      life_total := 40
      poison_counters := 0 : PlayerGameState }
  (game_state, player_states)

end SessionInitializer

-- sanity checks that the repository functions compute
example :
    GameCardRepository.get_card_by_id [] 3 = none := by decide

section RepoSanity

def sampleCard (i : Nat) (z : CardZone) (pos : Int) : GameCard :=
  { id := i, game_state_id := 1, player_game_state_id := 10,
    deck_card_id := none, card_scryfall_id := "s", card_name := "c",
    mana_cost := none, cmc := none, type_line := none, oracle_text := none,
    colors := none, power := none, toughness := none, keywords := none,
    image_uris := none, card_faces := none, zone := z, position := pos,
    is_tapped := false, is_face_up := true, battlefield_x := none,
    battlefield_y := none, is_attacking := false, is_blocking := false,
    damage_received := 0 }

example :
    (GameCardRepository.get_player_cards_in_zone
      [sampleCard 1 CardZone.library 5, sampleCard 2 CardZone.library 2,
       sampleCard 3 CardZone.hand 0] 10 CardZone.library).map (·.id)
    = [2, 1] := by decide

example :
    (GameCardRepository.draw_cards
      [sampleCard 1 CardZone.library 5, sampleCard 2 CardZone.library 2,
       sampleCard 3 CardZone.hand 0] 10 1).map (fun c => (c.id, c.zone, c.position))
    = [(1, CardZone.library, 5), (2, CardZone.hand, 0), (3, CardZone.hand, 0)] := by
  decide

end RepoSanity

/-- The number of cards of one player in one zone — the length of the
corresponding zone query. -/
def zoneCount (cards : List GameCard) (player_state_id : Nat)
    (zone : CardZone) : Nat :=
  (cards.filter (zonePred player_state_id zone)).length

section InitSanity

def sampleMeta : CardMeta :=
  { name := "n", mana_cost := none, cmc := none, type_line := none,
    oracle_text := none, colors := none, power := none, toughness := none,
    keywords := none, image_uris := none, card_faces := none }

-- a 3-card deck (1 commander + 2 copies of another card): opening hand
-- is capped by the 2 non-commander cards
example :
    (fun t => (zoneCount t 10 CardZone.hand, zoneCount t 10 CardZone.commander,
               zoneCount t 10 CardZone.library))
      (SessionInitializer.dealPlayer 1 10 0
        [{ id := 0, card_scryfall_id := "a", quantity := 1, is_commander := true,
           meta := sampleMeta },
         { id := 1, card_scryfall_id := "b", quantity := 2, is_commander := false,
           meta := sampleMeta }]
        [2, 0, 1])
    = (2, 1, 0) := by decide

-- a 10-card deck with 1 commander: hand 7, commander 1, library 2
example :
    (fun t => (zoneCount t 10 CardZone.hand, zoneCount t 10 CardZone.commander,
               zoneCount t 10 CardZone.library))
      (SessionInitializer.dealPlayer 1 10 0
        [{ id := 0, card_scryfall_id := "a", quantity := 1, is_commander := true,
           meta := sampleMeta },
         { id := 1, card_scryfall_id := "b", quantity := 9, is_commander := false,
           meta := sampleMeta }]
        [3, 0, 9, 1, 8, 2, 7, 4, 6, 5])
    = (7, 1, 2) := by decide

end InitSanity

/-! ## Helper lemmas -/

theorem enum_map_player_order (game_state_id : Nat)
    (l : List GameRoomPlayer) (su : Nat) :
    ((l.enum.map fun p =>
      ({ id := p.1, game_state_id := game_state_id, user_id := p.2.user_id,
         player_order := Int.ofNat p.1,
         is_active := p.2.user_id = su,
         life_total := 40, poison_counters := 0 : PlayerGameState})).map
      (·.player_order))
    = (List.range l.length).map Int.ofNat := by
  rw [List.map_map]
  have h : ((fun ps : PlayerGameState => ps.player_order) ∘ fun p : Nat × GameRoomPlayer =>
      ({ id := p.1, game_state_id := game_state_id, user_id := p.2.user_id,
         player_order := Int.ofNat p.1,
         is_active := p.2.user_id = su,
         life_total := 40, poison_counters := 0 : PlayerGameState}))
      = (Int.ofNat ∘ Prod.fst) := rfl
  rw [h, ← List.map_map, List.enum_map_fst]

/-! ## Claim theorems -/

/-- C4: the claim says the Session Initializer assigns `player_order`
as a random permutation of `[0..N-1]` that for some executions differs
from the join-order assignment.  The code computes a shuffled
`player_order` list but never reads it: every player state is created
with `player_order = i`, the join-order loop index.  This theorem shows
that for every execution (every value of the shuffled list and of the
starting-player draw) the assigned orders are exactly the join-order
sequence `0, 1, ..., N-1`. -/
theorem C4_player_order_is_join_order (game_state_id : Nat)
    (accepted_players : List GameRoomPlayer) (start_index : Nat)
    (shuffled_player_order : List Nat) :
    ((SessionInitializer.start_game_states game_state_id accepted_players
        start_index shuffled_player_order).2.map (·.player_order))
    = (List.range accepted_players.length).map Int.ofNat := by
  unfold SessionInitializer.start_game_states
  exact enum_map_player_order game_state_id accepted_players _

theorem countP_eq_one_of_nodup_map {α : Type} (f : α → Nat) (su : Nat) :
    ∀ l : List α, (l.map f).Nodup → (∃ a ∈ l, f a = su) →
      l.countP (fun x => decide (f x = su)) = 1 := by
  intro l
  induction l with
  | nil => intro _ h; simp at h
  | cons a l ih =>
    intro hnd hex
    rw [List.map_cons, List.nodup_cons] at hnd
    by_cases ha : f a = su
    · rw [List.countP_cons_of_pos _ _ (by simpa using ha)]
      have hzero : l.countP (fun x => decide (f x = su)) = 0 := by
        rw [List.countP_eq_zero]
        intro b hb
        simp only [decide_eq_true_eq]
        intro hbsu
        exact hnd.1 (by rw [ha, ← hbsu]; exact List.mem_map_of_mem f hb)
      omega
    · rw [List.countP_cons_of_neg _ _ (by simpa using ha)]
      apply ih hnd.2
      rcases hex with ⟨b, hb, hbsu⟩
      rcases List.mem_cons.mp hb with rfl | hb'
      · exact absurd hbsu ha
      · exact ⟨b, hb', hbsu⟩

/-- C3: every successful start with at least two accepted players (with
distinct user ids) creates a session with `current_turn = 1`,
`current_phase = untap` and `active_player = starting_player`, the
starting player being one of the accepted players (the one picked by
the `random.choice` draw `start_index`); every created player state has
`life_total = 40`, `poison_counters = 0`, and `is_active` holds exactly
for the starting player. -/
theorem C3_session_initial_values (game_state_id : Nat)
    (accepted_players : List GameRoomPlayer) (start_index : Nat)
    (shuffled_player_order : List Nat)
    (htwo : 2 ≤ accepted_players.length)
    (hidx : start_index < accepted_players.length)
    (hnodup : (accepted_players.map (·.user_id)).Nodup) :
    (SessionInitializer.start_game_states game_state_id accepted_players
        start_index shuffled_player_order).1.current_turn = 1 ∧
    (SessionInitializer.start_game_states game_state_id accepted_players
        start_index shuffled_player_order).1.current_phase = TurnPhase.untap ∧
    (SessionInitializer.start_game_states game_state_id accepted_players
        start_index shuffled_player_order).1.active_player_id =
      (SessionInitializer.start_game_states game_state_id accepted_players
        start_index shuffled_player_order).1.starting_player_id ∧
    (∃ p ∈ accepted_players, p.user_id =
      (SessionInitializer.start_game_states game_state_id accepted_players
        start_index shuffled_player_order).1.starting_player_id) ∧
    (∀ ps ∈ (SessionInitializer.start_game_states game_state_id accepted_players
        start_index shuffled_player_order).2,
      ps.life_total = 40 ∧ ps.poison_counters = 0 ∧
      (ps.is_active = true ↔ ps.user_id =
        (SessionInitializer.start_game_states game_state_id accepted_players
          start_index shuffled_player_order).1.starting_player_id)) ∧
    ((SessionInitializer.start_game_states game_state_id accepted_players
        start_index shuffled_player_order).2.filter (·.is_active)).length = 1 := by
  have hgetD : accepted_players.getD start_index
      { id := 0, user_id := 0, status := PlayerStatus.accepted,
        is_host := false, deck_id := none }
      = accepted_players[start_index] := by
    rw [List.getD_eq_getElem?_getD, List.getElem?_eq_getElem hidx, Option.getD_some]
  refine ⟨rfl, rfl, rfl, ?_, ?_, ?_⟩
  · refine ⟨accepted_players[start_index], List.getElem_mem hidx, ?_⟩
    show _ = (accepted_players.getD start_index _).user_id
    rw [hgetD]
  · intro ps hps
    unfold SessionInitializer.start_game_states at hps
    simp only [List.mem_map] at hps
    obtain ⟨p, _, rfl⟩ := hps
    refine ⟨rfl, rfl, ?_⟩
    show decide (p.2.user_id = _) = true ↔ _
    rw [decide_eq_true_eq]
    exact Iff.rfl
  · unfold SessionInitializer.start_game_states
    simp only []
    rw [← List.countP_eq_length_filter, List.countP_map]
    have hcomp : ((fun ps : PlayerGameState => ps.is_active) ∘ fun p : Nat × GameRoomPlayer =>
        ({ id := p.1, game_state_id := game_state_id, user_id := p.2.user_id,
           player_order := Int.ofNat p.1,
           is_active := p.2.user_id = (accepted_players.getD start_index
             { id := 0, user_id := 0, status := PlayerStatus.accepted,
               is_host := false, deck_id := none }).user_id,
           life_total := 40, poison_counters := 0 : PlayerGameState}))
        = (fun p : Nat × GameRoomPlayer =>
            decide (p.2.user_id = (accepted_players.getD start_index
             { id := 0, user_id := 0, status := PlayerStatus.accepted,
               is_host := false, deck_id := none }).user_id)) := rfl
    rw [hcomp]
    have hsnd : ((fun p : Nat × GameRoomPlayer =>
        decide (p.2.user_id = (accepted_players.getD start_index
         { id := 0, user_id := 0, status := PlayerStatus.accepted,
           is_host := false, deck_id := none }).user_id)))
        = ((fun q : GameRoomPlayer =>
            decide (q.user_id = (accepted_players.getD start_index
             { id := 0, user_id := 0, status := PlayerStatus.accepted,
               is_host := false, deck_id := none }).user_id)) ∘ Prod.snd) := rfl
    rw [hsnd, ← List.countP_map, List.enum_map_snd]
    apply countP_eq_one_of_nodup_map _ _ _ hnodup
    exact ⟨accepted_players[start_index], List.getElem_mem hidx, by rw [hgetD]⟩

def witnessPlayers : List GameRoomPlayer :=
  [{ id := 1, user_id := 11, status := PlayerStatus.accepted, is_host := true,
     deck_id := some 5 },
   { id := 2, user_id := 22, status := PlayerStatus.accepted, is_host := false,
     deck_id := some 6 }]

theorem C3_session_initial_values_witness :
    (2 ≤ witnessPlayers.length ∧ 0 < witnessPlayers.length ∧
      (witnessPlayers.map (·.user_id)).Nodup) ∧
    ((SessionInitializer.start_game_states 7 witnessPlayers 0 [1, 0]).2.filter
      (·.is_active)).length = 1 :=
  ⟨⟨by decide, by decide, by decide⟩,
   (C3_session_initial_values 7 witnessPlayers 0 [1, 0] (by decide) (by decide)
      (by decide)).2.2.2.2.2⟩

theorem resolve_player_state_ok (db : Db) (u : Nat) (gs : GameState)
    (ps : PlayerGameState)
    (h1 : db.room_status = GameStatus.in_progress)
    (h2 : db.game_state = some gs)
    (h3 : GameService.get_by_game_state_and_user db.player_states gs.id u = some ps) :
    GameService.resolve_player_state db u = .ok (gs, ps) := by
  simp [GameService.resolve_player_state, h1, h2, h3]

theorem resolve_owned_card_forbidden (db : Db) (ps : PlayerGameState)
    (card_id : Nat) (card : GameCard)
    (h : GameCardRepository.get_card_by_id db.cards card_id = some card)
    (hne : card.player_game_state_id ≠ ps.id) :
    GameService.resolve_owned_card db ps card_id
      = .error (ApiErr.forbidden "This card is not yours") := by
  simp [GameService.resolve_owned_card, h, hne]

/-- C7: for an in-progress game, a card owned by player A's state and
any different participant B (resolved to their own player state), each
of `move_card`, `tap_card` and `update_battlefield_position` fails the
`card.player_game_state_id == player_state.id` ownership check and
returns the Forbidden error "This card is not yours", for every target
zone, position and coordinates and whatever zone the card is in; the
error propagates before any write, so the store (and the card) is
unchanged — in this embedding an `.error` result carries no new state. -/
theorem C7_foreign_card_ops_forbidden (db : Db) (gs : GameState)
    (psA psB : PlayerGameState) (card : GameCard)
    (userA userB card_id : Nat) (target_zone : CardZone) (position x y : Int)
    (hprog : db.room_status = GameStatus.in_progress)
    (hgs : db.game_state = some gs)
    (hpsA : psA ∈ db.player_states)
    (huserA : psA.user_id = userA)
    (hpsB : GameService.get_by_game_state_and_user db.player_states gs.id userB
      = some psB)
    (hids : (db.player_states.map (·.id)).Nodup)
    (hcard : GameCardRepository.get_card_by_id db.cards card_id = some card)
    (hown : card.player_game_state_id = psA.id)
    (hAB : userA ≠ userB) :
    GameService.move_card db userB card_id target_zone position
      = .error (ApiErr.forbidden "This card is not yours") ∧
    GameService.tap_card db userB card_id
      = .error (ApiErr.forbidden "This card is not yours") ∧
    GameService.update_battlefield_position db userB card_id x y
      = .error (ApiErr.forbidden "This card is not yours") := by
  have hmemB : psB ∈ db.player_states := List.mem_of_find?_eq_some hpsB
  have hpredB := List.find?_some hpsB
  have huserB : psB.user_id = userB := by
    simp only [decide_eq_true_eq] at hpredB
    exact hpredB.2
  have hAneB : psA ≠ psB := by
    intro h
    exact hAB (by rw [← huserA, ← huserB, h])
  have hidne : card.player_game_state_id ≠ psB.id := by
    rw [hown]
    intro h
    exact hAneB (List.inj_on_of_nodup_map hids hpsA hmemB h)
  have hres := resolve_player_state_ok db userB gs psB hprog hgs hpsB
  have hforb := resolve_owned_card_forbidden db psB card_id card hcard hidne
  refine ⟨?_, ?_, ?_⟩
  · simp [GameService.move_card, hres, hforb]
  · simp [GameService.tap_card, hres, hforb]
  · simp [GameService.update_battlefield_position, hres, hforb]

def witnessCard (i : Nat) (ps : Nat) (z : CardZone) (pos : Int) : GameCard :=
  { id := i, game_state_id := 7, player_game_state_id := ps,
    deck_card_id := some 1, card_scryfall_id := "scry", card_name := "Card",
    mana_cost := some "1W", cmc := some 2, type_line := some "Creature",
    oracle_text := some "text", colors := some "W", power := some "2",
    toughness := some "2", keywords := none, image_uris := some "img",
    card_faces := none, zone := z, position := pos,
    is_tapped := false, is_face_up := true, battlefield_x := some 3,
    battlefield_y := some 4, is_attacking := false, is_blocking := false,
    damage_received := 0 }

def witnessDb : Db :=
  { room_status := GameStatus.in_progress
    host_id := 11
    room_players := witnessPlayers
    game_state := some
      { id := 7, current_turn := 1, active_player_id := 11,
        current_phase := TurnPhase.untap, starting_player_id := 11 }
    player_states :=
      [{ id := 1, game_state_id := 7, user_id := 11, player_order := 0,
         is_active := true, life_total := 40, poison_counters := 0 },
       { id := 2, game_state_id := 7, user_id := 22, player_order := 1,
         is_active := false, life_total := 40, poison_counters := 0 }]
    cards :=
      [witnessCard 100 1 CardZone.hand 0,
       witnessCard 101 1 CardZone.library 0,
       witnessCard 102 2 CardZone.battlefield 0,
       witnessCard 103 2 CardZone.graveyard 0] }

theorem C7_foreign_card_ops_forbidden_witness :
    (witnessDb.room_status = GameStatus.in_progress ∧
     (witnessDb.player_states.map (·.id)).Nodup ∧ (11 : Nat) ≠ 22) ∧
    GameService.move_card witnessDb 22 100 CardZone.graveyard 3
      = .error (ApiErr.forbidden "This card is not yours") ∧
    GameService.tap_card witnessDb 22 100
      = .error (ApiErr.forbidden "This card is not yours") ∧
    GameService.update_battlefield_position witnessDb 22 100 5 6
      = .error (ApiErr.forbidden "This card is not yours") :=
  ⟨⟨by decide, by decide, by decide⟩,
   C7_foreign_card_ops_forbidden witnessDb
     { id := 7, current_turn := 1, active_player_id := 11,
       current_phase := TurnPhase.untap, starting_player_id := 11 }
     { id := 1, game_state_id := 7, user_id := 11, player_order := 0,
       is_active := true, life_total := 40, poison_counters := 0 }
     { id := 2, game_state_id := 7, user_id := 22, player_order := 1,
       is_active := false, life_total := 40, poison_counters := 0 }
     (witnessCard 100 1 CardZone.hand 0) 11 22 100 CardZone.graveyard 3 5 6
     (by decide) (by decide) (by decide) (by decide) (by decide) (by decide)
     (by decide) (by decide) (by decide)⟩

/-- C9: `stop_game` called by the host on an IN_PROGRESS room deletes
the session row together with every player state and card instance of
that session and sets the room back to WAITING, after which
`get_game_state` returns NotFound for any accepted room member; called
on a room that is not IN_PROGRESS it returns the BadRequest error
"Game is not in progress" — an `.error` result carries no new state, so
nothing changes. -/
theorem C9_stop_game_teardown (db : Db) (gs : GameState)
    (viewer : Nat) (viewerP : GameRoomPlayer)
    (hgs : db.game_state = some gs)
    (hview : GameService.get_room_player db.room_players viewer = some viewerP)
    (hacc : viewerP.status = PlayerStatus.accepted) :
    (db.room_status = GameStatus.in_progress →
      ∃ db', GameService.stop_game db db.host_id = .ok db' ∧
        db'.room_status = GameStatus.waiting ∧
        db'.game_state = none ∧
        (∀ ps ∈ db'.player_states, ps.game_state_id ≠ gs.id) ∧
        (∀ c ∈ db'.cards, c.game_state_id ≠ gs.id) ∧
        GameService.get_game_state db' viewer
          = .error (ApiErr.notFound "Game state not found")) ∧
    (db.room_status ≠ GameStatus.in_progress →
      GameService.stop_game db db.host_id
        = .error (ApiErr.badRequest "Game is not in progress")) := by
  constructor
  · intro hprog
    refine ⟨{ db with
        room_status := GameStatus.waiting
        cards := db.cards.filter fun c => decide (c.game_state_id ≠ gs.id)
        player_states := db.player_states.filter fun p => decide (p.game_state_id ≠ gs.id)
        game_state := none }, ?_, rfl, rfl, ?_, ?_, ?_⟩
    · simp [GameService.stop_game, hgs, hprog]
    · intro ps hps
      have := List.of_mem_filter hps
      simpa using this
    · intro c hc
      have := List.of_mem_filter hc
      simpa using this
    · simp [GameService.get_game_state, hview, hacc]
  · intro hnprog
    simp [GameService.stop_game, hnprog]

theorem C9_stop_game_teardown_witness :
    (witnessDb.game_state = some
      { id := 7, current_turn := 1, active_player_id := 11,
        current_phase := TurnPhase.untap, starting_player_id := 11 } ∧
     witnessDb.room_status = GameStatus.in_progress) ∧
    (∃ db', GameService.stop_game witnessDb witnessDb.host_id = .ok db' ∧
      db'.room_status = GameStatus.waiting ∧
      db'.game_state = none ∧
      (∀ ps ∈ db'.player_states, ps.game_state_id ≠ 7) ∧
      (∀ c ∈ db'.cards, c.game_state_id ≠ 7) ∧
      GameService.get_game_state db' 22
        = .error (ApiErr.notFound "Game state not found")) :=
  ⟨⟨by decide, by decide⟩,
   (C9_stop_game_teardown witnessDb
     { id := 7, current_turn := 1, active_player_id := 11,
       current_phase := TurnPhase.untap, starting_player_id := 11 }
     22
     { id := 2, user_id := 22, status := PlayerStatus.accepted,
       is_host := false, deck_id := some 6 }
     (by decide) (by decide) (by decide)).1 (by decide)⟩

theorem find_id_map_update (g : GameCard → GameCard)
    (hid : ∀ c, (g c).id = c.id) (cid : Nat) (card : GameCard) :
    ∀ cards : List GameCard,
      (cards.find? fun c => decide (c.id = cid)) = some card →
      ((cards.map g).find? fun c => decide (c.id = cid)) = some (g card) := by
  intro cards
  induction cards with
  | nil => intro h; simp at h
  | cons a l ih =>
    intro h
    rw [List.map_cons]
    by_cases ha : a.id = cid
    · rw [List.find?_cons_of_pos _ (by simpa using ha)] at h
      rw [List.find?_cons_of_pos _ (by simp [hid a, ha])]
      cases h
      rfl
    · rw [List.find?_cons_of_neg _ (by simpa using ha)] at h
      rw [List.find?_cons_of_neg _ (by simp [hid a, ha])]
      exact ih h

theorem resolve_owned_card_ok (db : Db) (ps : PlayerGameState)
    (card_id : Nat) (card : GameCard)
    (h : GameCardRepository.get_card_by_id db.cards card_id = some card)
    (hown : card.player_game_state_id = ps.id) :
    GameService.resolve_owned_card db ps card_id = .ok card := by
  simp [GameService.resolve_owned_card, h, hown]

/-- C10: a successful service `move_card` writes only the card's `zone`
and `position`: the resulting card row keeps the original owner,
battlefield coordinates, tap/attack/block flags, damage and every
metadata field (so a card moved off the battlefield keeps its last
coordinates and flags), and every other card row of the store is
unchanged. -/
theorem C10_move_card_frame (db : Db) (gs : GameState) (ps : PlayerGameState)
    (card : GameCard) (user_id card_id : Nat) (target_zone : CardZone)
    (position : Int)
    (hprog : db.room_status = GameStatus.in_progress)
    (hgs : db.game_state = some gs)
    (hps : GameService.get_by_game_state_and_user db.player_states gs.id user_id
      = some ps)
    (hcard : GameCardRepository.get_card_by_id db.cards card_id = some card)
    (hown : card.player_game_state_id = ps.id) :
    ∃ db' c', GameService.move_card db user_id card_id target_zone position
        = .ok db' ∧
      GameCardRepository.get_card_by_id db'.cards card_id = some c' ∧
      c'.zone = target_zone ∧ c'.position = position ∧
      c'.player_game_state_id = card.player_game_state_id ∧
      c'.battlefield_x = card.battlefield_x ∧
      c'.battlefield_y = card.battlefield_y ∧
      c'.is_tapped = card.is_tapped ∧
      c'.is_attacking = card.is_attacking ∧
      c'.is_blocking = card.is_blocking ∧
      c'.damage_received = card.damage_received ∧
      c'.is_face_up = card.is_face_up ∧
      c'.id = card.id ∧ c'.game_state_id = card.game_state_id ∧
      c'.deck_card_id = card.deck_card_id ∧
      c'.card_scryfall_id = card.card_scryfall_id ∧
      c'.card_name = card.card_name ∧ c'.mana_cost = card.mana_cost ∧
      c'.cmc = card.cmc ∧ c'.type_line = card.type_line ∧
      c'.oracle_text = card.oracle_text ∧ c'.colors = card.colors ∧
      c'.power = card.power ∧ c'.toughness = card.toughness ∧
      c'.keywords = card.keywords ∧ c'.image_uris = card.image_uris ∧
      c'.card_faces = card.card_faces ∧
      (∀ c ∈ db.cards, c.id ≠ card_id → c ∈ db'.cards) := by
  have hres := resolve_player_state_ok db user_id gs ps hprog hgs hps
  have hok := resolve_owned_card_ok db ps card_id card hcard hown
  refine ⟨{ db with cards := (GameCardRepository.move_card db.cards card_id target_zone position) }, ?_⟩
  have hupd : ∀ c : GameCard,
      ((fun c : GameCard =>
        if c.id = card_id then
          { c with zone := target_zone
                   position := position
                   player_game_state_id := c.player_game_state_id }
        else c) c).id = c.id := by
    intro c
    by_cases h : c.id = card_id <;> simp [h]
  refine ⟨(fun c : GameCard =>
      if c.id = card_id then
        { c with zone := target_zone
                 position := position
                 player_game_state_id := c.player_game_state_id }
      else c) card, ?_, ?_⟩
  · simp [GameService.move_card, hres, hok]
  · have hcid : card.id = card_id := by
      have := List.find?_some hcard
      simpa using this
    have hfind := find_id_map_update _ hupd card_id card db.cards hcard
    refine ⟨hfind, ?_⟩
    have hceq : (fun c : GameCard =>
        if c.id = card_id then
          { c with zone := target_zone
                   position := position
                   player_game_state_id := c.player_game_state_id }
        else c) card
        = { card with zone := target_zone
                      position := position } := by
      show (if card.id = card_id then
        ({ card with zone := target_zone
                     position := position
                     player_game_state_id := card.player_game_state_id } : GameCard)
        else card) = _
      rw [if_pos hcid]
    rw [hceq]
    refine ⟨rfl, rfl, rfl, rfl, rfl, rfl, rfl, rfl, rfl, rfl, rfl, rfl, rfl, rfl,
      rfl, rfl, rfl, rfl, rfl, rfl, rfl, rfl, rfl, rfl, rfl, ?_⟩
    intro c hc hne
    have hfix : (fun c : GameCard =>
        if c.id = card_id then
          { c with zone := target_zone
                   position := position
                   player_game_state_id := c.player_game_state_id }
        else c) c = c := by
      show (if c.id = card_id then
        ({ c with zone := target_zone
                  position := position
                  player_game_state_id := c.player_game_state_id } : GameCard)
        else c) = _
      rw [if_neg hne]
    show c ∈ GameCardRepository.move_card db.cards card_id target_zone position
    unfold GameCardRepository.move_card
    rw [← hfix]
    exact List.mem_map_of_mem _ hc

theorem C10_move_card_frame_witness :
    (witnessDb.room_status = GameStatus.in_progress ∧
     GameCardRepository.get_card_by_id witnessDb.cards 102
       = some (witnessCard 102 2 CardZone.battlefield 0)) ∧
    (∃ db' c', GameService.move_card witnessDb 22 102 CardZone.exile 5
        = .ok db' ∧
      GameCardRepository.get_card_by_id db'.cards 102 = some c' ∧
      c'.zone = CardZone.exile ∧ c'.position = 5 ∧
      c'.player_game_state_id = (witnessCard 102 2 CardZone.battlefield 0).player_game_state_id ∧
      c'.battlefield_x = (witnessCard 102 2 CardZone.battlefield 0).battlefield_x ∧
      c'.battlefield_y = (witnessCard 102 2 CardZone.battlefield 0).battlefield_y ∧
      c'.is_tapped = (witnessCard 102 2 CardZone.battlefield 0).is_tapped ∧
      c'.is_attacking = (witnessCard 102 2 CardZone.battlefield 0).is_attacking ∧
      c'.is_blocking = (witnessCard 102 2 CardZone.battlefield 0).is_blocking ∧
      c'.damage_received = (witnessCard 102 2 CardZone.battlefield 0).damage_received ∧
      c'.is_face_up = (witnessCard 102 2 CardZone.battlefield 0).is_face_up ∧
      c'.id = (witnessCard 102 2 CardZone.battlefield 0).id ∧
      c'.game_state_id = (witnessCard 102 2 CardZone.battlefield 0).game_state_id ∧
      c'.deck_card_id = (witnessCard 102 2 CardZone.battlefield 0).deck_card_id ∧
      c'.card_scryfall_id = (witnessCard 102 2 CardZone.battlefield 0).card_scryfall_id ∧
      c'.card_name = (witnessCard 102 2 CardZone.battlefield 0).card_name ∧
      c'.mana_cost = (witnessCard 102 2 CardZone.battlefield 0).mana_cost ∧
      c'.cmc = (witnessCard 102 2 CardZone.battlefield 0).cmc ∧
      c'.type_line = (witnessCard 102 2 CardZone.battlefield 0).type_line ∧
      c'.oracle_text = (witnessCard 102 2 CardZone.battlefield 0).oracle_text ∧
      c'.colors = (witnessCard 102 2 CardZone.battlefield 0).colors ∧
      c'.power = (witnessCard 102 2 CardZone.battlefield 0).power ∧
      c'.toughness = (witnessCard 102 2 CardZone.battlefield 0).toughness ∧
      c'.keywords = (witnessCard 102 2 CardZone.battlefield 0).keywords ∧
      c'.image_uris = (witnessCard 102 2 CardZone.battlefield 0).image_uris ∧
      c'.card_faces = (witnessCard 102 2 CardZone.battlefield 0).card_faces ∧
      (∀ c ∈ witnessDb.cards, c.id ≠ 102 → c ∈ db'.cards)) :=
  ⟨⟨by decide, by decide⟩,
   C10_move_card_frame witnessDb
     { id := 7, current_turn := 1, active_player_id := 11,
       current_phase := TurnPhase.untap, starting_player_id := 11 }
     { id := 2, game_state_id := 7, user_id := 22, player_order := 1,
       is_active := false, life_total := 40, poison_counters := 0 }
     (witnessCard 102 2 CardZone.battlefield 0) 22 102 CardZone.exile 5
     (by decide) (by decide) (by decide) (by decide) (by decide)⟩

/-- C6: for a card owned by the caller, `play_card` fails with the
BadRequest error "Card is not in hand" whenever the card is not
currently in HAND; when it is in HAND, it moves the card to the target
zone at position = count of the caller's cards already in that zone
(append), and the result is identical for every `requested_position`
the client may have put in the `PlayCardRequest` (the service ignores
it). -/
theorem C6_play_card_append (db : Db) (gs : GameState) (ps : PlayerGameState)
    (card : GameCard) (user_id card_id : Nat) (target_zone : CardZone)
    (requested_position : Int)
    (hprog : db.room_status = GameStatus.in_progress)
    (hgs : db.game_state = some gs)
    (hps : GameService.get_by_game_state_and_user db.player_states gs.id user_id
      = some ps)
    (hcard : GameCardRepository.get_card_by_id db.cards card_id = some card)
    (hown : card.player_game_state_id = ps.id) :
    (card.zone ≠ CardZone.hand →
      GameService.play_card db user_id card_id target_zone requested_position
        = .error (ApiErr.badRequest "Card is not in hand")) ∧
    (card.zone = CardZone.hand →
      ∃ db' c',
        GameService.play_card db user_id card_id target_zone requested_position
          = .ok db' ∧
        GameService.play_card db user_id card_id target_zone 0 = .ok db' ∧
        GameCardRepository.get_card_by_id db'.cards card_id = some c' ∧
        c'.zone = target_zone ∧
        c'.position = Int.ofNat
          (GameCardRepository.get_player_cards_in_zone db.cards ps.id
            target_zone).length) := by
  have hres := resolve_player_state_ok db user_id gs ps hprog hgs hps
  have hok := resolve_owned_card_ok db ps card_id card hcard hown
  constructor
  · intro hz
    simp [GameService.play_card, hres, hok, hz]
  · intro hz
    have hcid : card.id = card_id := by
      have := List.find?_some hcard
      simpa using this
    set npos : Int := Int.ofNat
      (GameCardRepository.get_player_cards_in_zone db.cards ps.id
        target_zone).length with hnpos
    have hupd : ∀ c : GameCard,
        ((fun c : GameCard =>
          if c.id = card_id then
            { c with zone := target_zone
                     position := npos
                     player_game_state_id := c.player_game_state_id }
          else c) c).id = c.id := by
      intro c
      by_cases h : c.id = card_id <;> simp [h]
    have hfind := find_id_map_update _ hupd card_id card db.cards hcard
    have hceq : (if card.id = card_id then
        ({ card with zone := target_zone
                     position := npos
                     player_game_state_id := card.player_game_state_id } : GameCard)
        else card)
        = { card with zone := target_zone
                      position := npos } := by
      rw [if_pos hcid]
    rw [hceq] at hfind
    refine ⟨{ db with cards := (GameCardRepository.move_card db.cards card_id target_zone npos) }, ?_⟩
    refine ⟨{ card with zone := target_zone
                        position := npos }, ?_, ?_, hfind, rfl, rfl⟩
    · simp [GameService.play_card, hres, hok, hz, hnpos]
    · simp [GameService.play_card, hres, hok, hz, hnpos]

theorem C6_play_card_append_witness :
    ((witnessCard 100 1 CardZone.hand 0).zone = CardZone.hand ∧
     GameCardRepository.get_card_by_id witnessDb.cards 100
       = some (witnessCard 100 1 CardZone.hand 0)) ∧
    (∃ db' c',
      GameService.play_card witnessDb 11 100 CardZone.battlefield 9 = .ok db' ∧
      GameService.play_card witnessDb 11 100 CardZone.battlefield 0 = .ok db' ∧
      GameCardRepository.get_card_by_id db'.cards 100 = some c' ∧
      c'.zone = CardZone.battlefield ∧
      c'.position = Int.ofNat
        (GameCardRepository.get_player_cards_in_zone witnessDb.cards 1
          CardZone.battlefield).length) :=
  ⟨⟨by decide, by decide⟩,
   (C6_play_card_append witnessDb
     { id := 7, current_turn := 1, active_player_id := 11,
       current_phase := TurnPhase.untap, starting_player_id := 11 }
     { id := 1, game_state_id := 7, user_id := 11, player_order := 0,
       is_active := true, life_total := 40, poison_counters := 0 }
     (witnessCard 100 1 CardZone.hand 0) 11 100 CardZone.battlefield 9
     (by decide) (by decide) (by decide) (by decide) (by decide)).2 (by decide)⟩

theorem project_other_library (cards : List GameCard) (viewer : Nat)
    (ps : PlayerGameState) (h : ps.user_id ≠ viewer) :
    (GameService.project_player_state cards viewer ps).library = [] := by
  simp [GameService.project_player_state, h]

theorem project_other_hand (cards : List GameCard) (viewer : Nat)
    (ps : PlayerGameState) (h : ps.user_id ≠ viewer) :
    (GameService.project_player_state cards viewer ps).hand = [] := by
  simp [GameService.project_player_state, h]

theorem project_own_library (cards : List GameCard) (viewer : Nat)
    (ps : PlayerGameState) (h : ps.user_id = viewer) :
    (GameService.project_player_state cards viewer ps).library
      = (GameCardRepository.get_player_cards_in_zone cards ps.id
          CardZone.library).map (GameService.card_to_dict · true) := by
  simp [GameService.project_player_state, h]

theorem project_own_hand (cards : List GameCard) (viewer : Nat)
    (ps : PlayerGameState) (h : ps.user_id = viewer) :
    (GameService.project_player_state cards viewer ps).hand
      = (GameCardRepository.get_player_cards_in_zone cards ps.id
          CardZone.hand).map (GameService.card_to_dict · true) := by
  simp [GameService.project_player_state, h]

theorem get_game_state_ok_players (db : Db) (viewer : Nat) (view : GameStateView)
    (hok : GameService.get_game_state db viewer = .ok view) :
    ∃ gs, db.game_state = some gs ∧
      view.players = (GameService.get_by_game_state db.player_states gs.id).map
        (GameService.project_player_state db.cards viewer) := by
  unfold GameService.get_game_state at hok
  split at hok
  · exact absurd hok (by simp)
  · split at hok
    · exact absurd hok (by simp)
    · split at hok
      · exact absurd hok (by simp)
      · rename_i gs heq
        refine ⟨gs, heq, ?_⟩
        have hv := Except.ok.inj hok
        rw [← hv]

/-- C1: for every viewer A for whom `get_game_state` succeeds, every
projected player entry belonging to a different player B has an empty
LIBRARY and an empty HAND (no card of those zones, hence no card
identity, is included), while B's BATTLEFIELD, GRAVEYARD, EXILE and
COMMANDER are the full, revealed projections of B's cards in those
zones; the entry for A itself carries A's LIBRARY and HAND in full with
`reveal = true`, and `card_to_dict _ true` preserves the card identity. -/
theorem C1_visibility_projection (db : Db) (viewerA : Nat) (view : GameStateView)
    (hok : GameService.get_game_state db viewerA = .ok view) :
    (∀ pv ∈ view.players,
      (pv.user_id ≠ viewerA →
        pv.library = [] ∧ pv.hand = []) ∧
      ∃ ps ∈ db.player_states, ps.id = pv.id ∧ ps.user_id = pv.user_id ∧
        pv.battlefield = (GameCardRepository.get_player_cards_in_zone db.cards
          ps.id CardZone.battlefield).map GameService.card_to_battlefield_dict ∧
        pv.graveyard = (GameCardRepository.get_player_cards_in_zone db.cards
          ps.id CardZone.graveyard).map (GameService.card_to_dict · true) ∧
        pv.exile = (GameCardRepository.get_player_cards_in_zone db.cards
          ps.id CardZone.exile).map (GameService.card_to_dict · true) ∧
        pv.commander = (GameCardRepository.get_player_cards_in_zone db.cards
          ps.id CardZone.commander).map (GameService.card_to_dict · true) ∧
        (pv.user_id = viewerA →
          pv.library = (GameCardRepository.get_player_cards_in_zone db.cards
            ps.id CardZone.library).map (GameService.card_to_dict · true) ∧
          pv.hand = (GameCardRepository.get_player_cards_in_zone db.cards
            ps.id CardZone.hand).map (GameService.card_to_dict · true))) ∧
    (∀ c : GameCard, (GameService.card_to_dict c true).card_name = c.card_name ∧
      (GameService.card_to_dict c true).card_scryfall_id = c.card_scryfall_id ∧
      (GameService.card_to_dict c true).oracle_text = c.oracle_text) := by
  obtain ⟨gs, hgs, hplayers⟩ := get_game_state_ok_players db viewerA view hok
  constructor
  · intro pv hpv
    rw [hplayers] at hpv
    rw [List.mem_map] at hpv
    obtain ⟨ps, hpsmem, rfl⟩ := hpv
    have hpsdb : ps ∈ db.player_states := by
      have h1 : ps ∈ db.player_states.filter
          (fun p => decide (p.game_state_id = gs.id)) := by
        have := (List.mem_insertionSort GameService.orderLE).mp hpsmem
        exact this
      exact List.mem_of_mem_filter h1
    have huid : (GameService.project_player_state db.cards viewerA ps).user_id
        = ps.user_id := rfl
    constructor
    · intro hne
      rw [huid] at hne
      exact ⟨project_other_library _ _ _ hne, project_other_hand _ _ _ hne⟩
    · refine ⟨ps, hpsdb, rfl, rfl, rfl, rfl, rfl, rfl, ?_⟩
      intro heq
      rw [huid] at heq
      exact ⟨project_own_library _ _ _ heq, project_own_hand _ _ _ heq⟩
  · intro c
    exact ⟨rfl, rfl, rfl⟩

theorem C1_visibility_projection_witness :
    ∃ view, GameService.get_game_state witnessDb 11 = .ok view ∧
      ∀ pv ∈ view.players, pv.user_id ≠ 11 → pv.library = [] ∧ pv.hand = [] := by
  have hisok : (GameService.get_game_state witnessDb 11).isOk = true := by decide
  cases hv : GameService.get_game_state witnessDb 11 with
  | error e =>
    rw [hv] at hisok
    exact absurd hisok (by simp [Except.isOk, Except.toBool])
  | ok view =>
    refine ⟨view, rfl, ?_⟩
    intro pv hpv hne
    exact ((C1_visibility_projection witnessDb 11 view hv).1 pv hpv).1 hne

/-! ## Counting lemmas for the draw and dealing pipeline -/

theorem zoneCount_eq_countP (cards : List GameCard) (psId : Nat) (z : CardZone) :
    zoneCount cards psId z = cards.countP (zonePred psId z) := by
  rw [zoneCount, List.countP_eq_length_filter]

theorem length_zone_query (cards : List GameCard) (psId : Nat) (z : CardZone) :
    (GameCardRepository.get_player_cards_in_zone cards psId z).length
      = zoneCount cards psId z := by
  rw [GameCardRepository.get_player_cards_in_zone, List.length_insertionSort, zoneCount]

theorem drawn_cards_length (cards : List GameCard) (psId n : Nat) :
    (GameCardRepository.drawn_cards cards psId n).length
      = min n (zoneCount cards psId CardZone.library) := by
  rw [GameCardRepository.drawn_cards, List.length_take, length_zone_query]

theorem draw_update_id (drawn : List (Nat × GameCard)) (c : GameCard) :
    (GameCardRepository.draw_update drawn c).id = c.id := by
  unfold GameCardRepository.draw_update
  split <;> rfl

theorem draw_update_psid (drawn : List (Nat × GameCard)) (c : GameCard) :
    (GameCardRepository.draw_update drawn c).player_game_state_id
      = c.player_game_state_id := by
  unfold GameCardRepository.draw_update
  split <;> rfl

theorem draw_update_not_mem (T : List GameCard) (c : GameCard)
    (h : c.id ∉ T.map (·.id)) :
    GameCardRepository.draw_update T.enum c = c := by
  unfold GameCardRepository.draw_update
  have hnone : T.enum.find? (fun p => decide (p.2.id = c.id)) = none := by
    rw [List.find?_eq_none]
    intro p hp
    simp only [decide_eq_true_eq]
    intro hpc
    apply h
    rw [← hpc]
    have hsnd : p.2 ∈ T := by
      have hmm := List.mem_map_of_mem Prod.snd hp
      rwa [List.enum_map_snd] at hmm
    exact List.mem_map_of_mem _ hsnd
  rw [hnone]

theorem draw_update_zone_of_mem (T : List GameCard) (c : GameCard)
    (h : c.id ∈ T.map (·.id)) :
    (GameCardRepository.draw_update T.enum c).zone = CardZone.hand := by
  unfold GameCardRepository.draw_update
  obtain ⟨t, htT, htc⟩ := List.mem_map.mp h
  have hex : ∃ p ∈ T.enum, (fun p : Nat × GameCard => decide (p.2.id = c.id)) p := by
    have hmem : t ∈ List.map Prod.snd T.enum := by
      rw [List.enum_map_snd]; exact htT
    obtain ⟨p, hp, hpt⟩ := List.mem_map.mp hmem
    exact ⟨p, hp, by simp [hpt, htc]⟩
  have hsome := List.find?_isSome.mpr hex
  cases hfind : T.enum.find? (fun p => decide (p.2.id = c.id)) with
  | none => rw [hfind] at hsome; simp at hsome
  | some p => rfl

theorem countP_split_mem (l : List GameCard) (q : GameCard → Bool) (S : List Nat) :
    l.countP q
      = l.countP (fun r => decide (r.id ∈ S) && q r)
        + l.countP (fun r => !(decide (r.id ∈ S)) && q r) := by
  induction l with
  | nil => rfl
  | cons a l ih =>
    by_cases ha : a.id ∈ S <;> by_cases hq : q a <;>
      simp [List.countP_cons, ha, hq, ih] <;> omega

theorem countP_or_split (l : List GameCard) (A B : GameCard → Bool) :
    l.countP (fun r => A r || B r)
      = l.countP A + l.countP (fun r => !(A r) && B r) := by
  induction l with
  | nil => rfl
  | cons a l ih =>
    by_cases hA : A a <;> by_cases hB : B a <;>
      simp [List.countP_cons, hA, hB, ih] <;> omega

theorem countP_ids_eq_length (q : GameCard → Bool) :
    ∀ (l : List GameCard) (S : List Nat),
      (l.map (·.id)).Nodup → S.Nodup →
      (∀ s ∈ S, ∃ c ∈ l, c.id = s ∧ q c = true) →
      l.countP (fun r => decide (r.id ∈ S) && q r) = S.length := by
  intro l
  induction l with
  | nil =>
    intro S _ _ hsub
    have hS : S = [] := by
      cases S with
      | nil => rfl
      | cons s S' =>
        obtain ⟨c, hc, _⟩ := hsub s (List.mem_cons_self s S')
        exact absurd hc (List.not_mem_nil c)
    rw [hS]
    rfl
  | cons a l ih =>
    intro S hnd hS hsub
    rw [List.map_cons, List.nodup_cons] at hnd
    by_cases hpa : (decide (a.id ∈ S) && q a) = true
    · have haS : a.id ∈ S := by
        have := hpa
        simp only [Bool.and_eq_true, decide_eq_true_eq] at this
        exact this.1
      rw [List.countP_cons_of_pos (fun r : GameCard => decide (r.id ∈ S) && q r) l hpa]
      have hcong : ∀ r ∈ l,
          ((fun r : GameCard => decide (r.id ∈ S) && q r) r = true
            ↔ (fun r : GameCard => decide (r.id ∈ S.erase a.id) && q r) r = true) := by
        intro r hr
        have hrne : r.id ≠ a.id := by
          intro h
          exact hnd.1 (h ▸ List.mem_map_of_mem (·.id) hr)
        simp only [Bool.and_eq_true, decide_eq_true_eq]
        constructor
        · rintro ⟨hmem, hq⟩
          exact ⟨(List.Nodup.mem_erase_iff hS).mpr ⟨hrne, hmem⟩, hq⟩
        · rintro ⟨hmem, hq⟩
          exact ⟨((List.Nodup.mem_erase_iff hS).mp hmem).2, hq⟩
      rw [List.countP_congr hcong]
      have hsub' : ∀ s ∈ S.erase a.id, ∃ c ∈ l, c.id = s ∧ q c = true := by
        intro s hs
        have hsS := (List.Nodup.mem_erase_iff hS).mp hs
        obtain ⟨c, hc, hcs, hcq⟩ := hsub s hsS.2
        rcases List.mem_cons.mp hc with rfl | hcl
        · exact absurd hcs.symm hsS.1
        · exact ⟨c, hcl, hcs, hcq⟩
      rw [ih (S.erase a.id) hnd.2 (hS.erase _) hsub']
      have hlen := List.length_erase_of_mem haS
      have hpos := List.length_pos_of_mem haS
      omega
    · rw [List.countP_cons_of_neg (fun r : GameCard => decide (r.id ∈ S) && q r) l
        (by simpa using hpa)]
      apply ih S hnd.2 hS
      intro s hs
      obtain ⟨c, hc, hcs, hcq⟩ := hsub s hs
      rcases List.mem_cons.mp hc with rfl | hcl
      · exact absurd (by simp [hcs, hs, hcq]) hpa
      · exact ⟨c, hcl, hcs, hcq⟩

theorem zone_query_ids_nodup (cards : List GameCard) (psId : Nat) (z : CardZone)
    (hnd : (cards.map (·.id)).Nodup) :
    ((GameCardRepository.get_player_cards_in_zone cards psId z).map (·.id)).Nodup := by
  have hperm := List.perm_insertionSort posLE (cards.filter (zonePred psId z))
  have hfil : (cards.filter (zonePred psId z)).Sublist cards := List.filter_sublist _
  have h1 : ((cards.filter (zonePred psId z)).map (·.id)).Nodup :=
    (hfil.map (·.id)).nodup hnd
  exact ((hperm.map (·.id)).nodup_iff).mpr h1

theorem drawn_cards_mem (cards : List GameCard) (psId n : Nat) :
    ∀ t ∈ GameCardRepository.drawn_cards cards psId n,
      t ∈ cards ∧ zonePred psId CardZone.library t = true := by
  intro t ht
  have h1 : t ∈ GameCardRepository.get_player_cards_in_zone cards psId
      CardZone.library := List.mem_of_mem_take ht
  have h2 : t ∈ cards.filter (zonePred psId CardZone.library) :=
    (List.mem_insertionSort posLE).mp h1
  exact ⟨List.mem_of_mem_filter h2, List.of_mem_filter h2⟩

theorem drawn_cards_ids_nodup (cards : List GameCard) (psId n : Nat)
    (hnd : (cards.map (·.id)).Nodup) :
    ((GameCardRepository.drawn_cards cards psId n).map (·.id)).Nodup := by
  have hq := zone_query_ids_nodup cards psId CardZone.library hnd
  have hsub : (GameCardRepository.drawn_cards cards psId n).Sublist
      (GameCardRepository.get_player_cards_in_zone cards psId CardZone.library) :=
    List.take_sublist _ _
  exact (hsub.map (·.id)).nodup hq

theorem mem_drawn_of_id_mem (cards : List GameCard) (psId n : Nat)
    (hnd : (cards.map (·.id)).Nodup) (r : GameCard) (hr : r ∈ cards)
    (h : r.id ∈ (GameCardRepository.drawn_cards cards psId n).map (·.id)) :
    r ∈ GameCardRepository.drawn_cards cards psId n := by
  obtain ⟨t, ht, htid⟩ := List.mem_map.mp h
  have hteq := List.inj_on_of_nodup_map hnd hr
    ((drawn_cards_mem cards psId n t ht).1) htid.symm
  rw [hteq]
  exact ht

theorem draw_cards_zoneCount (cards : List GameCard) (psId n : Nat)
    (hnd : (cards.map (·.id)).Nodup) :
    zoneCount (GameCardRepository.draw_cards cards psId n) psId CardZone.hand
      = zoneCount cards psId CardZone.hand
        + min n (zoneCount cards psId CardZone.library) ∧
    zoneCount (GameCardRepository.draw_cards cards psId n) psId CardZone.library
      = zoneCount cards psId CardZone.library
        - min n (zoneCount cards psId CardZone.library) ∧
    (∀ (psId' : Nat) (z : CardZone),
      psId' ≠ psId ∨ (z ≠ CardZone.hand ∧ z ≠ CardZone.library) →
      zoneCount (GameCardRepository.draw_cards cards psId n) psId' z
        = zoneCount cards psId' z) := by
  set T := GameCardRepository.drawn_cards cards psId n with hT
  set S := T.map (·.id) with hS
  have hSlen : S.length = min n (zoneCount cards psId CardZone.library) := by
    rw [hS, List.length_map, hT, drawn_cards_length]
  have hprops : ∀ r ∈ cards, r.id ∈ S →
      r.player_game_state_id = psId ∧ r.zone = CardZone.library := by
    intro r hr hrS
    have hrT := mem_drawn_of_id_mem cards psId n hnd r hr hrS
    have := (drawn_cards_mem cards psId n r hrT).2
    simpa [zonePred] using this
  have hSnd : S.Nodup := drawn_cards_ids_nodup cards psId n hnd
  have hmap : GameCardRepository.draw_cards cards psId n
      = cards.map (GameCardRepository.draw_update T.enum) := rfl
  have hcount : ∀ (psId' : Nat) (z : CardZone),
      zoneCount (GameCardRepository.draw_cards cards psId n) psId' z
        = cards.countP (fun r => zonePred psId' z
            (GameCardRepository.draw_update T.enum r)) := by
    intro psId' z
    rw [hmap, zoneCount_eq_countP, List.countP_map]
    rfl
  refine ⟨?_, ?_, ?_⟩
  · -- hand count
    rw [hcount]
    have hcong : ∀ r ∈ cards,
        ((fun r => zonePred psId CardZone.hand
            (GameCardRepository.draw_update T.enum r)) r = true
          ↔ (fun r => decide (r.id ∈ S) || zonePred psId CardZone.hand r) r = true) := by
      intro r hr
      by_cases hrS : r.id ∈ S
      · have hz := draw_update_zone_of_mem T r hrS
        have hp := draw_update_psid T.enum r
        have hpsid := (hprops r hr hrS).1
        simp [zonePred, hz, hp, hpsid, hrS]
      · simp [draw_update_not_mem T r hrS, hrS]
    rw [List.countP_congr hcong, countP_or_split]
    have hA : cards.countP (fun r => decide (r.id ∈ S)) = S.length := by
      have hcong2 : ∀ r ∈ cards,
          ((fun r : GameCard => decide (r.id ∈ S)) r = true
            ↔ (fun r : GameCard => decide (r.id ∈ S) && (fun _ => true) r) r = true) := by
        intro r _
        simp
      rw [List.countP_congr hcong2]
      apply countP_ids_eq_length _ cards S hnd hSnd
      intro s hs
      obtain ⟨t, ht, hts⟩ := List.mem_map.mp hs
      exact ⟨t, (drawn_cards_mem cards psId n t ht).1, hts, rfl⟩
    have hAB : cards.countP
        (fun r => decide (r.id ∈ S) && zonePred psId CardZone.hand r) = 0 := by
      rw [List.countP_eq_zero]
      intro r hr
      simp only [Bool.and_eq_true, decide_eq_true_eq]
      rintro ⟨hrS, hq⟩
      have hzone := (hprops r hr hrS).2
      have hq2 : r.player_game_state_id = psId ∧ r.zone = CardZone.hand := by
        simpa [zonePred] using hq
      rw [hzone] at hq2
      exact absurd hq2.2 (by simp)
    have hsplit := countP_split_mem cards (zonePred psId CardZone.hand) S
    rw [hA, zoneCount_eq_countP, ← hSlen]
    omega
  · -- library count
    rw [hcount]
    have hcong : ∀ r ∈ cards,
        ((fun r => zonePred psId CardZone.library
            (GameCardRepository.draw_update T.enum r)) r = true
          ↔ (fun r => !(decide (r.id ∈ S))
              && zonePred psId CardZone.library r) r = true) := by
      intro r hr
      by_cases hrS : r.id ∈ S
      · have hz := draw_update_zone_of_mem T r hrS
        have hp := draw_update_psid T.enum r
        simp [zonePred, hz, hp, hrS]
      · simp [draw_update_not_mem T r hrS, hrS]
    rw [List.countP_congr hcong]
    have hAB : cards.countP
        (fun r => decide (r.id ∈ S) && zonePred psId CardZone.library r)
        = S.length := by
      apply countP_ids_eq_length _ cards S hnd hSnd
      intro s hs
      obtain ⟨t, ht, hts⟩ := List.mem_map.mp hs
      exact ⟨t, (drawn_cards_mem cards psId n t ht).1, hts,
        (drawn_cards_mem cards psId n t ht).2⟩
    have hsplit := countP_split_mem cards (zonePred psId CardZone.library) S
    rw [← hSlen, zoneCount_eq_countP]
    omega
  · -- other zones / other players
    intro psId' z hz
    rw [hcount]
    have hcong : ∀ r ∈ cards,
        ((fun r => zonePred psId' z
            (GameCardRepository.draw_update T.enum r)) r = true
          ↔ zonePred psId' z r = true) := by
      intro r hr
      by_cases hrS : r.id ∈ S
      · have hzu := draw_update_zone_of_mem T r hrS
        have hp := draw_update_psid T.enum r
        obtain ⟨hpsid, hzone⟩ := hprops r hr hrS
        rcases hz with hne | ⟨hzh, hzl⟩
        · simp [zonePred, hzu, hp, hpsid, hne, Ne.symm hne, hzone]
        · simp [zonePred, hzu, hp, hpsid, hzone, Ne.symm hzh, Ne.symm hzl]
      · simp [draw_update_not_mem T r hrS]
    rw [List.countP_congr hcong, zoneCount_eq_countP]

/-- C8: when the player's LIBRARY holds fewer than `n` cards (zero
included), `draw_cards` still succeeds — it is total and just draws all
available cards: afterwards the LIBRARY is empty and the HAND has
grown by exactly the old LIBRARY size; when the LIBRARY was already
empty the card table is unchanged, and the service-level `draw_card`
returns `.ok` with the store untouched (HAND unchanged, no error). -/
theorem C8_draw_underflow (cards : List GameCard) (psId n : Nat)
    (hnd : (cards.map (·.id)).Nodup)
    (hlt : zoneCount cards psId CardZone.library < n) :
    zoneCount (GameCardRepository.draw_cards cards psId n) psId
      CardZone.library = 0 ∧
    zoneCount (GameCardRepository.draw_cards cards psId n) psId CardZone.hand
      = zoneCount cards psId CardZone.hand
        + zoneCount cards psId CardZone.library ∧
    (GameCardRepository.get_player_cards_in_zone cards psId CardZone.library = [] →
      GameCardRepository.draw_cards cards psId n = cards) ∧
    (∀ (db : Db) (gs : GameState) (ps : PlayerGameState) (u : Nat),
      db.cards = cards → ps.id = psId →
      db.room_status = GameStatus.in_progress →
      db.game_state = some gs →
      GameService.get_by_game_state_and_user db.player_states gs.id u = some ps →
      GameCardRepository.get_player_cards_in_zone cards psId CardZone.library = [] →
      GameService.draw_card db u = .ok db) := by
  obtain ⟨h1, h2, _⟩ := draw_cards_zoneCount cards psId n hnd
  have hempty_eq : GameCardRepository.get_player_cards_in_zone cards psId
      CardZone.library = [] →
      ∀ m : Nat, GameCardRepository.draw_cards cards psId m = cards := by
    intro hempty m
    unfold GameCardRepository.draw_cards GameCardRepository.drawn_cards
    rw [hempty, List.take_nil]
    have hfix : ∀ c : GameCard,
        GameCardRepository.draw_update ([] : List GameCard).enum c = c := by
      intro c
      rfl
    have hmapc : List.map (GameCardRepository.draw_update
        ([] : List GameCard).enum) cards = List.map id cards :=
      List.map_congr_left (fun a _ => hfix a)
    rw [hmapc, List.map_id]
  refine ⟨?_, ?_, fun h => hempty_eq h n, ?_⟩
  · rw [h2]
    omega
  · rw [h1]
    congr 1
    omega
  · intro db gs ps u hdb hps hprog hgs hlookup hempty
    have hres := resolve_player_state_ok db u gs ps hprog hgs hlookup
    have hcards : GameCardRepository.draw_cards db.cards ps.id 1 = db.cards := by
      rw [hdb, hps]
      exact hempty_eq hempty 1
    simp [GameService.draw_card, hres, hcards]

theorem C8_draw_underflow_witness :
    ((witnessDb.cards.map (·.id)).Nodup ∧
     zoneCount witnessDb.cards 2 CardZone.library < 1 ∧
     GameCardRepository.get_player_cards_in_zone witnessDb.cards 2
       CardZone.library = []) ∧
    (GameCardRepository.draw_cards witnessDb.cards 2 1 = witnessDb.cards ∧
     GameService.draw_card witnessDb 22 = .ok witnessDb) :=
  ⟨⟨by decide, by decide, by decide⟩,
   ⟨(C8_draw_underflow witnessDb.cards 2 1 (by decide) (by decide)).2.2.1 (by decide),
    (C8_draw_underflow witnessDb.cards 2 1 (by decide) (by decide)).2.2.2 witnessDb
      { id := 7, current_turn := 1, active_player_id := 11,
        current_phase := TurnPhase.untap, starting_player_id := 11 }
      { id := 2, game_state_id := 7, user_id := 22, player_order := 1,
        is_active := false, life_total := 40, poison_counters := 0 }
      22 rfl rfl (by decide) (by decide) (by decide) (by decide)⟩⟩

theorem find?_id_of_mem (l : List GameCard) (hnd : (l.map (·.id)).Nodup)
    (c : GameCard) (hc : c ∈ l) :
    l.find? (fun r => decide (r.id = c.id)) = some c := by
  induction l with
  | nil => cases hc
  | cons a l ih =>
    rw [List.map_cons, List.nodup_cons] at hnd
    rcases List.mem_cons.mp hc with rfl | hcl
    · rw [List.find?_cons_of_pos _ (by simp)]
    · have hane : a.id ≠ c.id := fun he =>
        hnd.1 (he ▸ List.mem_map_of_mem (·.id) hcl)
      rw [List.find?_cons_of_neg _ (by simpa using hane)]
      exact ih hnd.2 hcl

theorem enumFrom_find?_of_getElem? :
    ∀ (l : List GameCard) (k i : Nat) (c : GameCard),
      (l.map (·.id)).Nodup → l[i]? = some c →
      (l.enumFrom k).find? (fun p => decide (p.2.id = c.id)) = some (k + i, c) := by
  intro l
  induction l with
  | nil => intro k i c _ h; simp at h
  | cons a l ih =>
    intro k i c hnd h
    rw [List.map_cons, List.nodup_cons] at hnd
    cases i with
    | zero =>
      rw [List.getElem?_cons_zero] at h
      have hac : a = c := by injection h
      subst hac
      rw [List.enumFrom_cons, List.find?_cons_of_pos _ (by simp)]
      simp
    | succ i =>
      rw [List.getElem?_cons_succ] at h
      have hcl : c ∈ l := List.getElem?_mem h
      have hane : a.id ≠ c.id := fun he =>
        hnd.1 (he ▸ List.mem_map_of_mem (·.id) hcl)
      rw [List.enumFrom_cons, List.find?_cons_of_neg _ (by simpa using hane)]
      rw [ih (k + 1) i c hnd.2 h]
      have harith : k + 1 + i = k + (i + 1) := by omega
      rw [harith]

/-- C5, as the claim states it, is false on the code: `draw_cards`
numbers drawn cards from `0`, not from `len(existing hand)`.  Concrete
input: player state 1 of `witnessDb` has one HAND card (position 0) and
one LIBRARY card; the service draw succeeds and the drawn card (id 101)
lands in HAND at position 0 — not at position `len(existing hand) = 1`
— so the two HAND cards now share position 0 instead of having distinct
positions. -/
theorem C5_draw_append_counterexample :
    (GameCardRepository.get_player_cards_in_zone witnessDb.cards 1
      CardZone.hand).length = 1 ∧
    GameService.draw_card witnessDb 11
      = .ok { witnessDb with
          cards := GameCardRepository.draw_cards witnessDb.cards 1 1 } ∧
    GameCardRepository.get_card_by_id
        (GameCardRepository.draw_cards witnessDb.cards 1 1) 101
      = some { witnessCard 101 1 CardZone.library 0 with
          zone := CardZone.hand, position := 0 } ∧
    ((0 : Int) ≠ 1) ∧
    ((GameCardRepository.get_player_cards_in_zone
        (GameCardRepository.draw_cards witnessDb.cards 1 1) 1
        CardZone.hand).map (·.position)) = [0, 0] := by
  refine ⟨by decide, ?_, by decide, by decide, by decide⟩
  have hres := resolve_player_state_ok witnessDb 11
    { id := 7, current_turn := 1, active_player_id := 11,
      current_phase := TurnPhase.untap, starting_player_id := 11 }
    { id := 1, game_state_id := 7, user_id := 11, player_order := 0,
      is_active := true, life_total := 40, poison_counters := 0 }
    (by decide) (by decide) (by decide)
  simp [GameService.draw_card, hres]

/-- C5 (amended): for every card table with distinct ids, `draw_cards`
moves the first `min n |library|` cards of the position-sorted LIBRARY
to HAND, assigning the i-th drawn card HAND position `i` counting from
`0` — regardless of the existing HAND contents (the source restarts the
numbering instead of continuing after the existing HAND cards, so a
drawn card's position can coincide with an existing HAND card's) — and
leaves every card not drawn unchanged. -/
theorem C5_draw_positions_from_zero (cards : List GameCard) (psId n : Nat)
    (hnd : (cards.map (·.id)).Nodup) :
    List.Sorted posLE
      (GameCardRepository.get_player_cards_in_zone cards psId CardZone.library) ∧
    (GameCardRepository.drawn_cards cards psId n).length
      = min n (zoneCount cards psId CardZone.library) ∧
    (∀ (i : Nat) (c : GameCard),
      (GameCardRepository.drawn_cards cards psId n)[i]? = some c →
      GameCardRepository.get_card_by_id
          (GameCardRepository.draw_cards cards psId n) c.id
        = some { c with zone := CardZone.hand, position := Int.ofNat i }) ∧
    (∀ r ∈ cards,
      r.id ∉ (GameCardRepository.drawn_cards cards psId n).map (·.id) →
      r ∈ GameCardRepository.draw_cards cards psId n) := by
  refine ⟨List.sorted_insertionSort posLE _, drawn_cards_length cards psId n,
    ?_, ?_⟩
  · intro i c hic
    have hcT : c ∈ GameCardRepository.drawn_cards cards psId n :=
      List.getElem?_mem hic
    have hccards : c ∈ cards := (drawn_cards_mem cards psId n c hcT).1
    have hTnd := drawn_cards_ids_nodup cards psId n hnd
    have henum := enumFrom_find?_of_getElem?
      (GameCardRepository.drawn_cards cards psId n) 0 i c hTnd hic
    have hupdc : GameCardRepository.draw_update
        (GameCardRepository.drawn_cards cards psId n).enum c
        = { c with zone := CardZone.hand, position := Int.ofNat i } := by
      unfold GameCardRepository.draw_update
      rw [show (GameCardRepository.drawn_cards cards psId n).enum
          = (GameCardRepository.drawn_cards cards psId n).enumFrom 0 from rfl]
      rw [henum]
      simp
    have hfind := find_id_map_update
      (GameCardRepository.draw_update
        (GameCardRepository.drawn_cards cards psId n).enum)
      (draw_update_id _) c.id c cards (find?_id_of_mem cards hnd c hccards)
    show (cards.map (GameCardRepository.draw_update
      (GameCardRepository.drawn_cards cards psId n).enum)).find?
        (fun r => decide (r.id = c.id)) = _
    rw [hfind, hupdc]
  · intro r hr hrS
    have hfix := draw_update_not_mem
      (GameCardRepository.drawn_cards cards psId n) r hrS
    show r ∈ cards.map (GameCardRepository.draw_update
      (GameCardRepository.drawn_cards cards psId n).enum)
    rw [← hfix]
    exact List.mem_map_of_mem _ hr

theorem C5_draw_positions_from_zero_witness :
    (witnessDb.cards.map (·.id)).Nodup ∧
    GameCardRepository.get_card_by_id
        (GameCardRepository.draw_cards witnessDb.cards 1 1) 101
      = some { witnessCard 101 1 CardZone.library 0 with
          zone := CardZone.hand, position := Int.ofNat 0 } :=
  ⟨by decide,
   (C5_draw_positions_from_zero witnessDb.cards 1 1 (by decide)).2.2.1 0
     (witnessCard 101 1 CardZone.library 0) (by decide)⟩

/-! ## Counting through the dealing pipeline (Session Initializer) -/

theorem countP_map_congr (cards : List GameCard) (g : GameCard → GameCard)
    (q : GameCard → Bool) (h : ∀ c ∈ cards, q (g c) = q c) :
    (cards.map g).countP q = cards.countP q := by
  rw [List.countP_map]
  exact List.countP_congr (fun c hc => by simp [Function.comp, h c hc])

theorem ids_map_preserved (cards : List GameCard) (g : GameCard → GameCard)
    (h : ∀ c, (g c).id = c.id) :
    (cards.map g).map (·.id) = cards.map (·.id) := by
  rw [List.map_map]
  exact List.map_congr_left (fun c _ => h c)

theorem shuffle_update_id (A : List (Nat × Int)) (c : GameCard) :
    (SessionInitializer.shuffle_update A c).id = c.id := by
  unfold SessionInitializer.shuffle_update
  split <;> rfl

theorem shuffle_update_psid (A : List (Nat × Int)) (c : GameCard) :
    (SessionInitializer.shuffle_update A c).player_game_state_id
      = c.player_game_state_id := by
  unfold SessionInitializer.shuffle_update
  split <;> rfl

theorem shuffle_update_zone (A : List (Nat × Int)) (c : GameCard) :
    (SessionInitializer.shuffle_update A c).zone = c.zone := by
  unfold SessionInitializer.shuffle_update
  split <;> rfl

theorem shuffle_update_deck (A : List (Nat × Int)) (c : GameCard) :
    (SessionInitializer.shuffle_update A c).deck_card_id = c.deck_card_id := by
  unfold SessionInitializer.shuffle_update
  split <;> rfl

theorem isCommanderCard_congr (cmdIds : List Nat) (c d : GameCard)
    (h : c.deck_card_id = d.deck_card_id) :
    SessionInitializer.isCommanderCard cmdIds c
      = SessionInitializer.isCommanderCard cmdIds d := by
  unfold SessionInitializer.isCommanderCard
  rw [h]

theorem commander_update_id (psId : Nat) (cmdIds : List Nat) (c : GameCard) :
    (SessionInitializer.commander_update psId cmdIds c).id = c.id := by
  unfold SessionInitializer.commander_update
  split <;> rfl

theorem commander_update_psid (psId : Nat) (cmdIds : List Nat) (c : GameCard) :
    (SessionInitializer.commander_update psId cmdIds c).player_game_state_id
      = c.player_game_state_id := by
  unfold SessionInitializer.commander_update
  split <;> rfl

theorem commander_update_deck (psId : Nat) (cmdIds : List Nat) (c : GameCard) :
    (SessionInitializer.commander_update psId cmdIds c).deck_card_id
      = c.deck_card_id := by
  unfold SessionInitializer.commander_update
  split <;> rfl

theorem commander_update_zone_pos (psId : Nat) (cmdIds : List Nat) (c : GameCard)
    (h : c.player_game_state_id = psId ∧
      SessionInitializer.isCommanderCard cmdIds c = true) :
    (SessionInitializer.commander_update psId cmdIds c).zone
      = CardZone.commander := by
  unfold SessionInitializer.commander_update
  rw [if_pos (by exact ⟨h.1, h.2⟩)]

theorem commander_update_neg (psId : Nat) (cmdIds : List Nat) (c : GameCard)
    (h : ¬(c.player_game_state_id = psId ∧
      SessionInitializer.isCommanderCard cmdIds c = true)) :
    SessionInitializer.commander_update psId cmdIds c = c := by
  unfold SessionInitializer.commander_update
  rw [if_neg (by simpa using h)]

theorem countP_replicate {α : Type} (p : α → Bool) (n : Nat) (a : α) :
    (List.replicate n a).countP p = if p a then n else 0 := by
  induction n with
  | zero => simp
  | succ n ih =>
    rw [List.replicate_succ, List.countP_cons, ih]
    by_cases h : p a <;> simp [h]

theorem expandEntries_length (entries : List DeckEntry) :
    (SessionInitializer.expandEntries entries).length
      = (entries.map (·.quantity)).sum := by
  induction entries with
  | nil => rfl
  | cons e es ih =>
    rw [SessionInitializer.expandEntries, List.length_append,
      List.length_replicate, ih, List.map_cons, List.sum_cons]

theorem expandEntries_countP_commander (entries : List DeckEntry) :
    (SessionInitializer.expandEntries entries).countP (·.is_commander)
      = ((entries.filter (·.is_commander)).map (·.quantity)).sum := by
  induction entries with
  | nil => rfl
  | cons e es ih =>
    rw [SessionInitializer.expandEntries, List.countP_append, countP_replicate, ih]
    by_cases h : e.is_commander
    · rw [List.filter_cons_of_pos (by simpa using h), List.map_cons, List.sum_cons]
      simp [h]
    · rw [List.filter_cons_of_neg (by simpa using h)]
      simp [h]

theorem mem_expandEntries (entries : List DeckEntry) :
    ∀ e ∈ SessionInitializer.expandEntries entries, e ∈ entries := by
  induction entries with
  | nil => intro e he; cases he
  | cons a es ih =>
    intro e he
    rw [SessionInitializer.expandEntries, List.mem_append] at he
    rcases he with hrep | hexp
    · rw [List.eq_of_mem_replicate hrep]
      exact List.mem_cons_self a es
    · exact List.mem_cons_of_mem a (ih e hexp)

theorem materialize_length (gsId psId firstId : Nat) (entries : List DeckEntry) :
    (SessionInitializer.materialize gsId psId firstId entries).length
      = (SessionInitializer.expandEntries entries).length := by
  rw [SessionInitializer.materialize, List.length_map, List.enum_length]

theorem materialize_ids_nodup (gsId psId firstId : Nat)
    (entries : List DeckEntry) :
    ((SessionInitializer.materialize gsId psId firstId entries).map
      (·.id)).Nodup := by
  rw [SessionInitializer.materialize, List.map_map]
  have hcomp : ((fun c : GameCard => c.id) ∘ fun p : Nat × DeckEntry =>
      SessionInitializer.mkDealtCard gsId psId firstId p.1 p.2)
      = (fun n : Nat => firstId + n) ∘ Prod.fst := rfl
  rw [hcomp, ← List.map_map, List.enum_map_fst]
  exact (List.nodup_range _).map (fun a b h => by omega)

theorem materialize_zoneCount (gsId psId firstId : Nat)
    (entries : List DeckEntry) :
    zoneCount (SessionInitializer.materialize gsId psId firstId entries) psId
      CardZone.library = (SessionInitializer.expandEntries entries).length ∧
    (∀ z, z ≠ CardZone.library →
      zoneCount (SessionInitializer.materialize gsId psId firstId entries)
        psId z = 0) := by
  constructor
  · rw [zoneCount_eq_countP, SessionInitializer.materialize, List.countP_map]
    have hcong : ∀ p ∈ (SessionInitializer.expandEntries entries).enum,
        ((zonePred psId CardZone.library ∘ fun p : Nat × DeckEntry =>
          SessionInitializer.mkDealtCard gsId psId firstId p.1 p.2) p = true
        ↔ (fun _ : Nat × DeckEntry => true) p = true) := by
      intro p _
      simp [Function.comp, zonePred, SessionInitializer.mkDealtCard]
    rw [List.countP_congr hcong, List.countP_true, List.enum_length]
  · intro z hz
    rw [zoneCount_eq_countP, SessionInitializer.materialize, List.countP_map]
    rw [List.countP_eq_zero]
    intro p _
    simp [Function.comp, zonePred, SessionInitializer.mkDealtCard, Ne.symm hz]

theorem snd_mem_of_mem_enum {α : Type} {l : List α} {p : Nat × α}
    (h : p ∈ l.enum) : p.2 ∈ l := by
  have hm := List.mem_map_of_mem Prod.snd h
  rwa [List.enum_map_snd] at hm

theorem materialize_countP_commander (gsId psId firstId : Nat)
    (entries : List DeckEntry) (hnd : (entries.map (·.id)).Nodup) :
    (SessionInitializer.materialize gsId psId firstId entries).countP
      (SessionInitializer.isCommanderCard
        ((entries.filter (·.is_commander)).map (·.id)))
      = (SessionInitializer.expandEntries entries).countP (·.is_commander) := by
  rw [SessionInitializer.materialize, List.countP_map]
  have hcong : ∀ p ∈ (SessionInitializer.expandEntries entries).enum,
      ((SessionInitializer.isCommanderCard
          ((entries.filter (·.is_commander)).map (·.id)) ∘
        fun p : Nat × DeckEntry =>
          SessionInitializer.mkDealtCard gsId psId firstId p.1 p.2) p = true
      ↔ ((fun e : DeckEntry => e.is_commander) ∘ Prod.snd) p = true) := by
    intro p hp
    have hpe : p.2 ∈ SessionInitializer.expandEntries entries :=
      snd_mem_of_mem_enum hp
    have hpentries : p.2 ∈ entries := mem_expandEntries entries p.2 hpe
    show SessionInitializer.isCommanderCard _
      (SessionInitializer.mkDealtCard gsId psId firstId p.1 p.2) = true ↔ _
    unfold SessionInitializer.isCommanderCard SessionInitializer.mkDealtCard
    constructor
    · intro hc
      have hmem : p.2.id ∈ (entries.filter (·.is_commander)).map (·.id) := by
        simpa using hc
      obtain ⟨e', he', heid⟩ := List.mem_map.mp hmem
      have he'entries : e' ∈ entries := List.mem_of_mem_filter he'
      have hee : e' = p.2 := List.inj_on_of_nodup_map hnd he'entries hpentries heid
      have := List.of_mem_filter he'
      rw [hee] at this
      simpa using this
    · intro hc
      have hfil : p.2 ∈ entries.filter (·.is_commander) :=
        List.mem_filter.mpr ⟨hpentries, by simpa using hc⟩
      have : p.2.id ∈ (entries.filter (·.is_commander)).map (·.id) :=
        List.mem_map_of_mem (·.id) hfil
      simpa using this
  rw [List.countP_congr hcong, ← List.countP_map, List.enum_map_snd]

theorem countP_not {α : Type} (l : List α) (p : α → Bool) :
    l.countP (fun a => !(p a)) = l.length - l.countP p := by
  induction l with
  | nil => rfl
  | cons a l ih =>
    have hle := List.countP_le_length p (l := l)
    by_cases h : p a <;> simp [List.countP_cons, h, ih] <;> omega

theorem materialize_table (gsId psId firstId : Nat) (entries : List DeckEntry) :
    ∀ c ∈ SessionInitializer.materialize gsId psId firstId entries,
      c.player_game_state_id = psId ∧ c.zone = CardZone.library := by
  intro c hc
  rw [SessionInitializer.materialize] at hc
  obtain ⟨p, _, rfl⟩ := List.mem_map.mp hc
  exact ⟨rfl, rfl⟩

theorem shuffleLibrary_zoneCount (cards : List GameCard) (psId : Nat)
    (positions : List Int) (psId' : Nat) (z : CardZone) :
    zoneCount (SessionInitializer.shuffleLibrary cards psId positions) psId' z
      = zoneCount cards psId' z := by
  rw [zoneCount_eq_countP, zoneCount_eq_countP]
  apply countP_map_congr
  intro c _
  simp [zonePred, shuffle_update_psid, shuffle_update_zone]

theorem shuffleLibrary_countP_cmd (cards : List GameCard) (psId : Nat)
    (positions : List Int) (cmdIds : List Nat) :
    (SessionInitializer.shuffleLibrary cards psId positions).countP
        (SessionInitializer.isCommanderCard cmdIds)
      = cards.countP (SessionInitializer.isCommanderCard cmdIds) := by
  apply countP_map_congr
  intro c _
  exact isCommanderCard_congr cmdIds _ c (shuffle_update_deck _ c)

theorem shuffleLibrary_ids (cards : List GameCard) (psId : Nat)
    (positions : List Int) :
    (SessionInitializer.shuffleLibrary cards psId positions).map (·.id)
      = cards.map (·.id) := by
  apply ids_map_preserved
  exact shuffle_update_id _

theorem shuffleLibrary_length (cards : List GameCard) (psId : Nat)
    (positions : List Int) :
    (SessionInitializer.shuffleLibrary cards psId positions).length
      = cards.length := by
  unfold SessionInitializer.shuffleLibrary
  exact List.length_map _ _

theorem shuffleLibrary_table (cards : List GameCard) (psId : Nat)
    (positions : List Int)
    (h : ∀ c ∈ cards, c.player_game_state_id = psId ∧ c.zone = CardZone.library) :
    ∀ c ∈ SessionInitializer.shuffleLibrary cards psId positions,
      c.player_game_state_id = psId ∧ c.zone = CardZone.library := by
  intro c hc
  obtain ⟨c0, hc0, rfl⟩ := List.mem_map.mp hc
  have := h c0 hc0
  rw [shuffle_update_psid, shuffle_update_zone]
  exact this

theorem moveCommanders_counts (cards : List GameCard) (psId : Nat)
    (cmdIds : List Nat)
    (htable : ∀ c ∈ cards,
      c.player_game_state_id = psId ∧ c.zone = CardZone.library) :
    zoneCount (SessionInitializer.moveCommanders cards psId cmdIds) psId
        CardZone.commander
      = cards.countP (SessionInitializer.isCommanderCard cmdIds) ∧
    zoneCount (SessionInitializer.moveCommanders cards psId cmdIds) psId
        CardZone.library
      = cards.length - cards.countP (SessionInitializer.isCommanderCard cmdIds) ∧
    (∀ z, z ≠ CardZone.commander → z ≠ CardZone.library →
      zoneCount (SessionInitializer.moveCommanders cards psId cmdIds) psId z = 0) ∧
    (SessionInitializer.moveCommanders cards psId cmdIds).countP
      (fun c => SessionInitializer.isCommanderCard cmdIds c
        && !(decide (c.zone = CardZone.commander))) = 0 := by
  refine ⟨?_, ?_, ?_, ?_⟩
  · rw [zoneCount_eq_countP, SessionInitializer.moveCommanders, List.countP_map]
    apply List.countP_congr
    intro c hc
    obtain ⟨hpsid, hzone⟩ := htable c hc
    show zonePred psId CardZone.commander
      (SessionInitializer.commander_update psId cmdIds c) = true ↔ _
    by_cases hcmd : SessionInitializer.isCommanderCard cmdIds c = true
    · rw [show SessionInitializer.commander_update psId cmdIds c
          = { c with zone := CardZone.commander, position := 0 } from by
        unfold SessionInitializer.commander_update
        rw [if_pos ⟨hpsid, hcmd⟩]]
      simp [zonePred, hpsid, hcmd]
    · rw [commander_update_neg psId cmdIds c (fun h => hcmd h.2)]
      simp [zonePred, hzone, hcmd]
  · rw [zoneCount_eq_countP, SessionInitializer.moveCommanders, List.countP_map]
    have hcong : ∀ c ∈ cards,
        ((zonePred psId CardZone.library ∘
          SessionInitializer.commander_update psId cmdIds) c = true
        ↔ (fun c => !(SessionInitializer.isCommanderCard cmdIds c)) c = true) := by
      intro c hc
      obtain ⟨hpsid, hzone⟩ := htable c hc
      show zonePred psId CardZone.library
        (SessionInitializer.commander_update psId cmdIds c) = true ↔ _
      by_cases hcmd : SessionInitializer.isCommanderCard cmdIds c = true
      · rw [show SessionInitializer.commander_update psId cmdIds c
            = { c with zone := CardZone.commander, position := 0 } from by
          unfold SessionInitializer.commander_update
          rw [if_pos ⟨hpsid, hcmd⟩]]
        simp [zonePred, hcmd]
      · rw [commander_update_neg psId cmdIds c (fun h => hcmd h.2)]
        simp [zonePred, hpsid, hzone, hcmd]
    rw [List.countP_congr hcong, countP_not]
  · intro z hzc hzl
    rw [zoneCount_eq_countP, SessionInitializer.moveCommanders, List.countP_map]
    rw [List.countP_eq_zero]
    intro c hc
    obtain ⟨hpsid, hzone⟩ := htable c hc
    show ¬ (zonePred psId z
      (SessionInitializer.commander_update psId cmdIds c) = true)
    by_cases hcmd : SessionInitializer.isCommanderCard cmdIds c = true
    · rw [show SessionInitializer.commander_update psId cmdIds c
          = { c with zone := CardZone.commander, position := 0 } from by
        unfold SessionInitializer.commander_update
        rw [if_pos ⟨hpsid, hcmd⟩]]
      simp [zonePred, Ne.symm hzc]
    · rw [commander_update_neg psId cmdIds c (fun h => hcmd h.2)]
      simp [zonePred, hzone, Ne.symm hzl]
  · rw [SessionInitializer.moveCommanders, List.countP_map, List.countP_eq_zero]
    intro c hc
    obtain ⟨hpsid, hzone⟩ := htable c hc
    show ¬ ((fun c => SessionInitializer.isCommanderCard cmdIds c
        && !(decide (c.zone = CardZone.commander)))
      (SessionInitializer.commander_update psId cmdIds c) = true)
    by_cases hcmd : SessionInitializer.isCommanderCard cmdIds c = true
    · rw [show SessionInitializer.commander_update psId cmdIds c
          = { c with zone := CardZone.commander, position := 0 } from by
        unfold SessionInitializer.commander_update
        rw [if_pos ⟨hpsid, hcmd⟩]]
      simp
    · rw [commander_update_neg psId cmdIds c (fun h => hcmd h.2)]
      simp [hcmd]

theorem moveCommanders_ids (cards : List GameCard) (psId : Nat)
    (cmdIds : List Nat) :
    (SessionInitializer.moveCommanders cards psId cmdIds).map (·.id)
      = cards.map (·.id) := by
  apply ids_map_preserved
  exact commander_update_id psId cmdIds

theorem moveCommanders_length (cards : List GameCard) (psId : Nat)
    (cmdIds : List Nat) :
    (SessionInitializer.moveCommanders cards psId cmdIds).length
      = cards.length := by
  unfold SessionInitializer.moveCommanders
  exact List.length_map _ _

theorem draw_update_mem_record (T : List GameCard) (c : GameCard)
    (h : c.id ∈ T.map (·.id)) :
    ∃ i : Nat, GameCardRepository.draw_update T.enum c
      = { c with zone := CardZone.hand, position := Int.ofNat i } := by
  unfold GameCardRepository.draw_update
  obtain ⟨t, htT, htc⟩ := List.mem_map.mp h
  have hex : ∃ p ∈ T.enum, (fun p : Nat × GameCard => decide (p.2.id = c.id)) p := by
    have hmem : t ∈ List.map Prod.snd T.enum := by
      rw [List.enum_map_snd]; exact htT
    obtain ⟨p, hp, hpt⟩ := List.mem_map.mp hmem
    exact ⟨p, hp, by simp [hpt, htc]⟩
  have hsome := List.find?_isSome.mpr hex
  cases hfind : T.enum.find? (fun p => decide (p.2.id = c.id)) with
  | none => rw [hfind] at hsome; simp at hsome
  | some p => exact ⟨p.1, rfl⟩

theorem draw_cards_countP_congr (cards : List GameCard) (psId n : Nat)
    (hnd : (cards.map (·.id)).Nodup) (q : GameCard → Bool)
    (hq : ∀ r ∈ cards, r.player_game_state_id = psId →
      r.zone = CardZone.library →
      ∀ pos : Int, q { r with zone := CardZone.hand, position := pos } = q r) :
    (GameCardRepository.draw_cards cards psId n).countP q = cards.countP q := by
  apply countP_map_congr
  intro r hr
  by_cases hrS : r.id ∈ (GameCardRepository.drawn_cards cards psId n).map (·.id)
  · obtain ⟨i, hrec⟩ := draw_update_mem_record _ r hrS
    rw [hrec]
    have hrT := mem_drawn_of_id_mem cards psId n hnd r hr hrS
    have hprop := (drawn_cards_mem cards psId n r hrT).2
    simp only [zonePred, decide_eq_true_eq] at hprop
    exact hq r hr hprop.1 hprop.2 _
  · rw [draw_update_not_mem _ r hrS]

theorem dealPlayer_zoneCounts (gsId psId firstId : Nat)
    (entries : List DeckEntry) (positions : List Int)
    (hnd : (entries.map (·.id)).Nodup) :
    zoneCount (SessionInitializer.dealPlayer gsId psId firstId entries positions)
        psId CardZone.hand
      = min 7 ((SessionInitializer.expandEntries entries).length
          - (SessionInitializer.expandEntries entries).countP (·.is_commander)) ∧
    zoneCount (SessionInitializer.dealPlayer gsId psId firstId entries positions)
        psId CardZone.commander
      = (SessionInitializer.expandEntries entries).countP (·.is_commander) ∧
    zoneCount (SessionInitializer.dealPlayer gsId psId firstId entries positions)
        psId CardZone.library
      = ((SessionInitializer.expandEntries entries).length
          - (SessionInitializer.expandEntries entries).countP (·.is_commander))
        - min 7 ((SessionInitializer.expandEntries entries).length
          - (SessionInitializer.expandEntries entries).countP (·.is_commander)) ∧
    (∀ z, z ≠ CardZone.hand → z ≠ CardZone.library → z ≠ CardZone.commander →
      zoneCount (SessionInitializer.dealPlayer gsId psId firstId entries
        positions) psId z = 0) ∧
    (SessionInitializer.dealPlayer gsId psId firstId entries positions).countP
      (fun c => SessionInitializer.isCommanderCard
          ((entries.filter (·.is_commander)).map (·.id)) c
        && !(decide (c.zone = CardZone.commander))) = 0 ∧
    (SessionInitializer.dealPlayer gsId psId firstId entries positions).length
      = (SessionInitializer.expandEntries entries).length := by
  set m := SessionInitializer.materialize gsId psId firstId entries with hm
  set cmdIds := (entries.filter (·.is_commander)).map (·.id) with hcmdIds
  set Q := (SessionInitializer.expandEntries entries).length with hQ
  set Cn := (SessionInitializer.expandEntries entries).countP (·.is_commander)
    with hCn
  have hmlib : zoneCount m psId CardZone.library = Q :=
    (materialize_zoneCount gsId psId firstId entries).1
  have hmother := (materialize_zoneCount gsId psId firstId entries).2
  have hmcmd : m.countP (SessionInitializer.isCommanderCard cmdIds) = Cn :=
    materialize_countP_commander gsId psId firstId entries hnd
  have hmnd := materialize_ids_nodup gsId psId firstId entries
  have hmlen : m.length = Q := materialize_length gsId psId firstId entries
  have hCle : Cn ≤ Q := by
    rw [hCn, hQ]
    exact List.countP_le_length _
  have hdeal : SessionInitializer.dealPlayer gsId psId firstId entries positions
      = if (GameCardRepository.get_player_cards_in_zone m psId
            CardZone.library).isEmpty
        then m
        else GameCardRepository.draw_cards
          (if cmdIds.isEmpty
           then SessionInitializer.shuffleLibrary m psId positions
           else SessionInitializer.moveCommanders
             (SessionInitializer.shuffleLibrary m psId positions) psId cmdIds)
          psId 7 := rfl
  by_cases hemp : (GameCardRepository.get_player_cards_in_zone m psId
      CardZone.library).isEmpty
  · -- empty deck: nothing is shuffled, moved or drawn
    rw [hdeal, if_pos hemp]
    have hQ0 : Q = 0 := by
      have hlen := length_zone_query m psId CardZone.library
      have : (GameCardRepository.get_player_cards_in_zone m psId
          CardZone.library).length = 0 := by
        rw [List.isEmpty_iff] at hemp
        rw [hemp]
        rfl
      omega
    have hC0 : Cn = 0 := by omega
    refine ⟨?_, ?_, ?_, ?_, ?_, ?_⟩
    · rw [hmother CardZone.hand (by simp), hQ0, hC0]
      omega
    · rw [hmother CardZone.commander (by simp), hC0]
    · rw [hmlib, hQ0, hC0]
      omega
    · intro z _ hzl _
      exact hmother z hzl
    · have hle := List.countP_mono_left
        (l := m)
        (p := fun c => SessionInitializer.isCommanderCard cmdIds c
          && !(decide (c.zone = CardZone.commander)))
        (q := SessionInitializer.isCommanderCard cmdIds)
        (fun c _ hc => by
          simp only [Bool.and_eq_true] at hc
          exact hc.1)
      omega
    · rw [hmlen]
  · -- non-empty: shuffle, commander move, opening draw
    rw [hdeal, if_neg hemp]
    set t1 := SessionInitializer.shuffleLibrary m psId positions with ht1
    have ht1lib : zoneCount t1 psId CardZone.library = Q := by
      rw [ht1, shuffleLibrary_zoneCount, hmlib]
    have ht1other : ∀ z, z ≠ CardZone.library → zoneCount t1 psId z = 0 := by
      intro z hz
      rw [ht1, shuffleLibrary_zoneCount]
      exact hmother z hz
    have ht1cmd : t1.countP (SessionInitializer.isCommanderCard cmdIds) = Cn := by
      rw [ht1, shuffleLibrary_countP_cmd, hmcmd]
    have ht1nd : (t1.map (·.id)).Nodup := by
      rw [ht1, shuffleLibrary_ids]
      exact hmnd
    have ht1len : t1.length = Q := by
      rw [ht1, shuffleLibrary_length, hmlen]
    have ht1table : ∀ c ∈ t1,
        c.player_game_state_id = psId ∧ c.zone = CardZone.library := by
      rw [ht1]
      exact shuffleLibrary_table m psId positions
        (materialize_table gsId psId firstId entries)
    -- the table t2 handed to the opening draw
    set t2 := if cmdIds.isEmpty then t1
      else SessionInitializer.moveCommanders t1 psId cmdIds with ht2
    have ht2facts :
        zoneCount t2 psId CardZone.library = Q - Cn ∧
        zoneCount t2 psId CardZone.commander = Cn ∧
        (∀ z, z ≠ CardZone.commander → z ≠ CardZone.library →
          zoneCount t2 psId z = 0) ∧
        t2.countP (fun c => SessionInitializer.isCommanderCard cmdIds c
          && !(decide (c.zone = CardZone.commander))) = 0 ∧
        (t2.map (·.id)).Nodup ∧ t2.length = Q := by
      by_cases hce : cmdIds.isEmpty
      · have hC0 : Cn = 0 := by
          rw [← ht1cmd, List.countP_eq_zero]
          intro c _
          rw [List.isEmpty_iff] at hce
          unfold SessionInitializer.isCommanderCard
          rw [hce]
          split <;> simp
        rw [ht2, if_pos hce]
        refine ⟨by rw [ht1lib, hC0]; omega, ?_, ?_, ?_, ht1nd, ht1len⟩
        · rw [ht1other CardZone.commander (by simp), hC0]
        · intro z _ hzl
          exact ht1other z hzl
        · rw [List.countP_eq_zero]
          intro c _
          rw [List.isEmpty_iff] at hce
          unfold SessionInitializer.isCommanderCard
          rw [hce]
          split <;> simp
      · rw [ht2, if_neg hce]
        obtain ⟨hc1, hc2, hc3, hc4⟩ :=
          moveCommanders_counts t1 psId cmdIds ht1table
        refine ⟨?_, ?_, hc3, hc4, ?_, ?_⟩
        · rw [hc2, ht1cmd, ht1len]
        · rw [hc1, ht1cmd]
        · rw [moveCommanders_ids]
          exact ht1nd
        · rw [moveCommanders_length, ht1len]
    obtain ⟨h2lib, h2cmd, h2other, h2q2, h2nd, h2len⟩ := ht2facts
    obtain ⟨hdhand, hdlib, hdother⟩ := draw_cards_zoneCount t2 psId 7 h2nd
    refine ⟨?_, ?_, ?_, ?_, ?_, ?_⟩
    · rw [hdhand, h2lib, h2other CardZone.hand (by simp) (by simp)]
      omega
    · rw [hdother psId CardZone.commander (Or.inr (by simp)), h2cmd]
    · rw [hdlib, h2lib]
    · intro z hzh hzl hzc
      rw [hdother psId z (Or.inr ⟨hzh, hzl⟩)]
      exact h2other z hzc hzl
    · rw [draw_cards_countP_congr t2 psId 7 h2nd _ ?_, h2q2]
      intro r _ _ hzone pos
      rw [isCommanderCard_congr cmdIds
        { r with zone := CardZone.hand, position := pos } r rfl, hzone]
      simp
    · show (t2.map (GameCardRepository.draw_update _)).length = Q
      rw [List.length_map, h2len]

def cexEntries : List DeckEntry :=
  [{ id := 0, card_scryfall_id := "cmd", quantity := 1, is_commander := true,
     meta := sampleMeta },
   { id := 1, card_scryfall_id := "spell", quantity := 1, is_commander := false,
     meta := sampleMeta }]

/-- C2, as the claim states it, is false on the code: with a resolved
deck of total quantity Q = 2 (one commander entry and one ordinary
entry, both of quantity 1), the claim predicts a HAND of
min(7, Q) = 2 cards, but the dealing pipeline moves the commander out
of the LIBRARY before the opening draw, so the HAND holds only 1
card. -/
theorem C2_opening_hand_counterexample :
    (cexEntries.map (·.quantity)).sum = 2 ∧
    min 7 ((cexEntries.map (·.quantity)).sum) = 2 ∧
    zoneCount (SessionInitializer.dealPlayer 1 10 0 cexEntries [0, 1]) 10
      CardZone.hand = 1 ∧
    (1 : Nat) ≠ 2 := by decide

/-- C2 (amended): after the Session Initializer's dealing pipeline runs
for a player whose deck resolved entries with total quantity Q, of
which C instances come from commander-flagged entries, the HAND holds
exactly min(7, Q − C) cards — the opening draw happens after the
commanders leave the LIBRARY, so the bound is Q − C, not the claimed
Q — the COMMANDER zone holds exactly the C commander-flagged instances
(no commander-flagged instance is ever in the initial LIBRARY or HAND:
outside COMMANDER their count is zero), the LIBRARY holds exactly
Q − |HAND| − C cards, every other zone is empty, and exactly Q card
instances were dealt. -/
theorem C2_opening_deal (gsId psId firstId : Nat) (entries : List DeckEntry)
    (positions : List Int)
    (hnd : (entries.map (·.id)).Nodup) :
    zoneCount (SessionInitializer.dealPlayer gsId psId firstId entries
        positions) psId CardZone.hand
      = min 7 ((entries.map (·.quantity)).sum
          - ((entries.filter (·.is_commander)).map (·.quantity)).sum) ∧
    zoneCount (SessionInitializer.dealPlayer gsId psId firstId entries
        positions) psId CardZone.commander
      = ((entries.filter (·.is_commander)).map (·.quantity)).sum ∧
    zoneCount (SessionInitializer.dealPlayer gsId psId firstId entries
        positions) psId CardZone.library
      = (entries.map (·.quantity)).sum
        - zoneCount (SessionInitializer.dealPlayer gsId psId firstId entries
            positions) psId CardZone.hand
        - ((entries.filter (·.is_commander)).map (·.quantity)).sum ∧
    (∀ z, z ≠ CardZone.hand → z ≠ CardZone.library → z ≠ CardZone.commander →
      zoneCount (SessionInitializer.dealPlayer gsId psId firstId entries
        positions) psId z = 0) ∧
    (SessionInitializer.dealPlayer gsId psId firstId entries positions).countP
      (fun c => SessionInitializer.isCommanderCard
          ((entries.filter (·.is_commander)).map (·.id)) c
        && !(decide (c.zone = CardZone.commander))) = 0 ∧
    (SessionInitializer.dealPlayer gsId psId firstId entries positions).length
      = (entries.map (·.quantity)).sum := by
  obtain ⟨hhand, hcmd, hlib, hother, hq2, hlen⟩ :=
    dealPlayer_zoneCounts gsId psId firstId entries positions hnd
  have hQe := expandEntries_length entries
  have hCe := expandEntries_countP_commander entries
  have hCle := List.countP_le_length
    (fun e : DeckEntry => e.is_commander)
    (l := SessionInitializer.expandEntries entries)
  refine ⟨?_, ?_, ?_, hother, hq2, ?_⟩
  · rw [hhand, hQe, hCe]
  · rw [hcmd, hCe]
  · rw [hlib, hhand, hQe, hCe]
    rw [← hQe, ← hCe]
    omega
  · rw [hlen, hQe]

def witnessEntries : List DeckEntry :=
  [{ id := 0, card_scryfall_id := "a", quantity := 1, is_commander := true,
     meta := sampleMeta },
   { id := 1, card_scryfall_id := "b", quantity := 9, is_commander := false,
     meta := sampleMeta }]

theorem C2_opening_deal_witness :
    (witnessEntries.map (·.id)).Nodup ∧
    zoneCount (SessionInitializer.dealPlayer 1 10 0 witnessEntries
        [3, 0, 9, 1, 8, 2, 7, 4, 6, 5]) 10 CardZone.hand
      = min 7 ((witnessEntries.map (·.quantity)).sum
          - ((witnessEntries.filter (·.is_commander)).map (·.quantity)).sum) ∧
    zoneCount (SessionInitializer.dealPlayer 1 10 0 witnessEntries
        [3, 0, 9, 1, 8, 2, 7, 4, 6, 5]) 10 CardZone.commander
      = ((witnessEntries.filter (·.is_commander)).map (·.quantity)).sum :=
  ⟨by decide,
   (C2_opening_deal 1 10 0 witnessEntries [3, 0, 9, 1, 8, 2, 7, 4, 6, 5]
     (by decide)).1,
   (C2_opening_deal 1 10 0 witnessEntries [3, 0, 9, 1, 8, 2, 7, 4, 6, 5]
     (by decide)).2.1⟩
